import Mathlib

/-!
Verification of the annotation-replay / actor-lifecycle reconciliation loop of the
phantom-object generation scripts (`lidar_recorder.py`, `path_replay.py`,
`laz_to_obj.py`).

The embedding models the replay loop of `LidarRecorder.replay_and_save_scans`
(the superset; `path_replay.replay_and_save_scans` is the same loop without the
phantom-object injection and without the re-serialized output record).  The
external CARLA simulator is modelled as an explicit actor store (`Sim`) plus
oracles (`FrameEnv`) deciding the outcome of each fallible simulator call:
`try_spawn_actor` success/failure, exceptions raised inside a `try` block, the
`random.randint`/`random.uniform` draws of the phantom injector, and whether the
lazy sensor attachment (`setup_lidar_sensor`, which calls the raising
`world.spawn_actor`) succeeds.  Real-valued quantities are modelled by `ℚ`
(the scripts' float arithmetic treated as exact), and `np.cos`/`np.sin` are
abstract function parameters.
-/

/-- carla.Location: a 3-component vector. -/
structure Loc where
  x : ℚ
  y : ℚ
  z : ℚ
deriving DecidableEq

/-- carla.Rotation. -/
structure Rot where
  pitch : ℚ
  roll : ℚ
  yaw : ℚ
deriving DecidableEq

/-- carla.Transform: a location plus a rotation. -/
structure Transform where
  location : Loc
  rotation : Rot
deriving DecidableEq

/-- The ten-field weather block of one frame record
(fields of `data['weather']` read by the replay loop). -/
structure Weather where
  cloudiness : ℚ
  precipitation : ℚ
  precipitation_deposits : ℚ
  wind_intensity : ℚ
  sun_azimuth_angle : ℚ
  sun_altitude_angle : ℚ
  fog_density : ℚ
  fog_distance : ℚ
  wetness : ℚ
  fog_falloff : ℚ
deriving DecidableEq

/-- One bounding-box entry of a frame record, with the fields the scripts read
(`class`, `id`, `type_id`, `location`, `rotation`) plus the two fields the
phantom injector writes (`base_type`, `extent`); the latter are `none` when the
serialized entry has no such field. -/
structure BBox where
  cls : String
  id : String
  type_id : Option String
  location : Loc
  rotation : Rot
  base_type : Option String
  extent : Option Loc
deriving DecidableEq

/-- One decompressed frame record: an ordered bounding-box list and a
weather block. -/
structure Frame where
  bounding_boxes : List BBox
  weather : Weather
deriving DecidableEq

/-- The ids present in a frame's bounding-box list. -/
def frameIds (f : Frame) : List String :=
  f.bounding_boxes.map BBox.id

/-- World settings, as read/mutated by the replay loop
(`settings.synchronous_mode`, `settings.fixed_delta_seconds`). -/
structure Settings where
  synchronous_mode : Bool
  fixed_delta_seconds : Option ℚ
deriving DecidableEq

/-- State of one simulator-side actor: its current transform and whether
physics simulation is enabled on it. -/
structure SimActor where
  transform : Transform
  physics : Bool
deriving DecidableEq

/-- The simulator world's actor store: live actors keyed by handle, a fresh
handle counter, and the log of destroyed handles. -/
structure Sim where
  nextHandle : ℕ
  live : List (ℕ × SimActor)
  destroyed : List ℕ
deriving DecidableEq

/-- Spawn a new actor at transform `t` (physics initially on); returns the new
handle.  Models a successful `world.try_spawn_actor` / `world.spawn_actor`. -/
def Sim.spawn (s : Sim) (t : Transform) : ℕ × Sim :=
  (s.nextHandle,
   { s with nextHandle := s.nextHandle + 1,
            live := (s.nextHandle, ⟨t, true⟩) :: s.live })

/-- Model of `actor.set_transform`. -/
def Sim.setTransform (s : Sim) (h : ℕ) (t : Transform) : Sim :=
  { s with live := s.live.map fun p =>
      if p.1 = h then (p.1, { p.2 with transform := t }) else p }

/-- Model of `actor.set_simulate_physics`. -/
def Sim.setPhysics (s : Sim) (h : ℕ) (b : Bool) : Sim :=
  { s with live := s.live.map fun p =>
      if p.1 = h then (p.1, { p.2 with physics := b }) else p }

/-- Model of `actor.destroy`. -/
def Sim.destroy (s : Sim) (h : ℕ) : Sim :=
  { s with live := s.live.filter fun p => decide (p.1 ≠ h),
           destroyed := h :: s.destroyed }

/-- The handles of the currently live actors. -/
def liveHandles (s : Sim) : List ℕ :=
  s.live.map Prod.fst

/-- The transform the simulator currently records for handle `h`. -/
def Sim.transformOf (s : Sim) (h : ℕ) : Option Transform :=
  (s.live.find? fun p => decide (p.1 = h)).map fun p => p.2.transform

/-- `CLASS_BLUEPRINT_MAP` of the source, as an ordered association list
(Python dict literals preserve insertion order). -/
def CLASS_BLUEPRINT_MAP : List (String × String) :=
  [("ego_vehicle", "vehicle.lincoln.mkz_2020"),
   ("vehicle", "vehicle.tesla.model3"),
   ("walker", "walker.pedestrian.0001"),
   ("traffic_light", "static.prop.streetsign"),
   ("traffic_sign", "static.prop.streetsign")]

/-- `MESH_ID_MAP` of the source. -/
def MESH_ID_MAP : List (String × String) :=
  [("Charger", "vehicle.dodge.charger_2020"),
   ("FordCrown", "vehicle.ford.crown"),
   ("Lincoln", "vehicle.lincoln.mkz_2020"),
   ("MercedesCCC", "vehicle.mercedes.coupe_2020"),
   ("NissanPatrol2021", "vehicle.nissan.patrol_2021")]

/-- `RANDOM_OBJECT_BLUEPRINTS` of the source. -/
def RANDOM_OBJECT_BLUEPRINTS : List String :=
  ["static.prop.trafficcone01",
   "static.prop.trafficwarning",
   "static.prop.streetbarrier",
   "static.prop.constructioncone"]

/-- Python `needle in hay` on character lists (substring containment). -/
def infixCheck (needle : List Char) : List Char → Bool
  | [] => needle.isEmpty
  | c :: t => needle.isPrefixOf (c :: t) || infixCheck needle t

/-- Python `key in type_id` substring test on strings. -/
def strContains (hay needle : String) : Bool :=
  infixCheck needle.data hay.data

/-- A blueprint is identified by its name; a blueprint library is the partial
map `find`: `none` models `blueprint_library.find` raising (CARLA's `find`
raises when the id is unknown). -/
abbrev Blueprint := String

/-- The final fallback block of `get_blueprint` (source lines 137-141):
`CLASS_BLUEPRINT_MAP.get(actor_class, 'static.prop.fountain')`, with a raising
lookup downgraded to the fixed default prop. -/
def class_fallback (find : String → Option Blueprint)
    (actor_class : Option String) : Except Unit Blueprint :=
  let fallback_id :=
    match actor_class with
    | some c => ((CLASS_BLUEPRINT_MAP.lookup c).getD "static.prop.fountain")
    | none => "static.prop.fountain"
  match find fallback_id with
  | some bp => .ok bp
  | none =>
    match find "static.prop.fountain" with
    | some bp => .ok bp
    | none => .error ()

/-- `get_blueprint` of the source (identical in both scripts).  `Except Unit`
is the result of the call: `.error ()` means an exception escapes the function.
`actor_class` and `type_id` are `bb.get('class')` / `bb.get('type_id')`, so
each may be absent; Python truthiness makes an empty-string `type_id` take the
class-fallback path. -/
def get_blueprint (find : String → Option Blueprint)
    (actor_class : Option String) (type_id : Option String) :
    Except Unit Blueprint :=
  match type_id with
  | none => class_fallback find actor_class
  | some t =>
    if t = "" then class_fallback find actor_class
    else if t.startsWith "/Game/" then
      match MESH_ID_MAP.find? fun kv => strContains t kv.1 with
      | some kv =>
        match find kv.2 with
        | some bp => .ok bp
        | none => .error ()
      | none =>
        match CLASS_BLUEPRINT_MAP.lookup "vehicle" with
        | some v =>
          match find v with
          | some bp => .ok bp
          | none => .error ()
        | none => .error ()
    else
      match find t with
      | some bp => .ok bp
      | none => class_fallback find actor_class

/-- Outcome of the bb-spawn `try` block of the replay loop for one
bounding-box entry. -/
inductive SpawnOutcome
  /-- the first `world.try_spawn_actor` returns an actor -/
  | ok1
  /-- the first call returns `None`; the retry 2 units higher returns an actor -/
  | ok2
  /-- both calls return `None` -/
  | fail
  /-- an exception is raised in the block before any registration
  (e.g. `get_blueprint` or `try_spawn_actor` raising) -/
  | exn
deriving DecidableEq

/-- The random draws and simulator responses consumed by one iteration of the
phantom-object loop in `spawn_random_objects`. -/
structure PhantomDraw where
  /-- `random.uniform(spawn_range)` -/
  distance : ℚ
  /-- `random.uniform(0, 2π)` -/
  angle : ℚ
  /-- `random.uniform(0, 360)` -/
  yaw : ℚ
  /-- the `random.choice` pick into `RANDOM_OBJECT_BLUEPRINTS` -/
  bpChoice : ℕ
  /-- whether `world.try_spawn_actor` returns an actor -/
  spawnOk : Bool
  /-- whether an exception is raised in the `try` block before registration -/
  exnFlag : Bool
  /-- `actor.bounding_box.extent` as reported by the simulator -/
  extent : Loc
deriving DecidableEq

/-- Per-frame environment: the oracles resolving every fallible simulator
interaction of one loop iteration. -/
structure FrameEnv where
  /-- outcome of the bb-spawn `try` block, indexed by position in the frame's
  bounding-box list -/
  spawnOut : ℕ → SpawnOutcome
  /-- whether `setup_lidar_sensor` (whose `world.spawn_actor` raises on
  failure) succeeds, indexed by bb position -/
  sensorOk : ℕ → Bool
  /-- the `random.randint(*spawn_frequency)` draw of this frame -/
  phantomCount : ℕ
  /-- the per-object draws of `spawn_random_objects` -/
  draws : ℕ → PhantomDraw

/-- Replay-loop state: the simulator store plus the local variables of
`replay_and_save_scans` that persist across frames.  `attempts` is a ghost
log recording `(frame index, id)` for every entry into the bb-spawn `try`
block. -/
structure RState where
  sim : Sim
  spawned_actors : List (String × ℕ)
  failed_spawn_ids : List String
  lidar_sensor : Option ℕ
  weather : Option Weather
  settings : Settings
  attempts : List (ℕ × String)

/-- Python `dict` lookup on the `spawned_actors` association list. -/
def findActor (m : List (String × ℕ)) (a : String) : Option ℕ :=
  match m with
  | [] => none
  | (k, v) :: t => if k = a then some v else findActor t a

/-- The key set (`spawned_actors.keys()`). -/
def keysOf (m : List (String × ℕ)) : List String :=
  m.map Prod.fst

/-- The decimal digits of a natural number, most significant first
(semantics of Python `str(n)` / f-string interpolation of an int). -/
def decDigits (n : ℕ) : List ℕ :=
  if h : n < 10 then [n] else decDigits (n / 10) ++ [n % 10]
termination_by n
decreasing_by exact Nat.div_lt_self (by omega) (by omega)

/-- The character of one decimal digit. -/
def digitChar10 : ℕ → Char
  | 0 => '0'
  | 1 => '1'
  | 2 => '2'
  | 3 => '3'
  | 4 => '4'
  | 5 => '5'
  | 6 => '6'
  | 7 => '7'
  | 8 => '8'
  | _ => '9'

/-- Decimal string of a natural number (Python `str(n)`). -/
def natStr (n : ℕ) : String :=
  ⟨(decDigits n).map digitChar10⟩

/-- The synthesized id of an injected phantom entry:
`f"random_\x7bframe_idx\x7d_\x7bi\x7d"`. -/
def phantomId (frame_idx i : ℕ) : String :=
  "random_" ++ natStr frame_idx ++ "_" ++ natStr i

/-- The spawn location of one phantom object: a polar offset around the ego
position at ego height (`rc`, `rs` are `np.cos`, `np.sin`). -/
def phantomLoc (rc rs : ℚ → ℚ) (d : PhantomDraw) (ego : Transform) : Loc :=
  ⟨ego.location.x + d.distance * rc d.angle,
   ego.location.y + d.distance * rs d.angle,
   ego.location.z⟩

/-- The spawn rotation of one phantom object. -/
def phantomRot (d : PhantomDraw) : Rot :=
  ⟨0, 0, d.yaw⟩

/-- The blueprint name `random.choice(RANDOM_OBJECT_BLUEPRINTS)` picks. -/
def phantomBp (d : PhantomDraw) : String :=
  RANDOM_OBJECT_BLUEPRINTS.getD (d.bpChoice % RANDOM_OBJECT_BLUEPRINTS.length)
    "static.prop.trafficcone01"

/-- The record `spawn_random_objects` appends for one successfully spawned
phantom object. -/
def mkPhantomAnno (rc rs : ℚ → ℚ) (draws : ℕ → PhantomDraw) (ego : Transform)
    (fidx i : ℕ) : BBox :=
  { cls := "random_object",
    id := phantomId fidx i,
    type_id := some (phantomBp (draws i)),
    base_type := some "static",
    location := phantomLoc rc rs (draws i) ego,
    rotation := phantomRot (draws i),
    extent := some (draws i).extent }

/-- Whether iteration `i` of the phantom loop records an object: no exception
and `try_spawn_actor` returned an actor. -/
def phantomOk (draws : ℕ → PhantomDraw) (i : ℕ) : Bool :=
  !(draws i).exnFlag && (draws i).spawnOk

/-- One iteration of the `for i in range(num_objects)` loop of
`spawn_random_objects`. -/
def phantomStep (rc rs : ℚ → ℚ) (draws : ℕ → PhantomDraw) (ego : Transform)
    (fidx : ℕ) (acc : List BBox × List ℕ × Sim) (i : ℕ) :
    List BBox × List ℕ × Sim :=
  let d := draws i
  if d.exnFlag then acc
  else if d.spawnOk then
    let (h, sim) := acc.2.2.spawn ⟨phantomLoc rc rs d ego, phantomRot d⟩
    let sim := sim.setPhysics h false
    (acc.1 ++ [mkPhantomAnno rc rs draws ego fidx i], acc.2.1 ++ [h], sim)
  else acc

/-- `spawn_random_objects` of the source: returns the recorded entries, the
spawned actor handles, and the updated simulator store. -/
def spawn_random_objects (rc rs : ℚ → ℚ) (draws : ℕ → PhantomDraw)
    (num_objects : ℕ) (sim : Sim) (ego : Transform) (fidx : ℕ) :
    List BBox × List ℕ × Sim :=
  (List.range num_objects).foldl (phantomStep rc rs draws ego fidx) ([], [], sim)

/-- The attachment transform of the sensor (`carla.Location(x=0, y=0, z=2)`). -/
def lidarTransform : Transform :=
  ⟨⟨0, 0, 2⟩, ⟨0, 0, 0⟩⟩

/-- The tail of the bb-spawn `try` block once `try_spawn_actor` has returned
an actor: disable physics, force the recorded transform, register the handle,
and lazily attach the sensor on the first successfully spawned ego vehicle.
Returns the new state and whether the block ended in `continue`
(an exception caught by the `except`).  A sensor-attachment failure raises
AFTER the handle has been registered, so the id lands in both
`spawned_actors` and `failed_spawn_ids`. -/
def spawnSuccess (fenv : FrameEnv) (pos : ℕ) (bb : BBox)
    (spawnT recordedT : Transform) (st : RState) : RState × Bool :=
  let (h, sim) := st.sim.spawn spawnT
  let sim := (sim.setPhysics h false).setTransform h recordedT
  let st := { st with sim := sim,
                      spawned_actors := (bb.id, h) :: st.spawned_actors }
  if bb.cls = "ego_vehicle" ∧ st.lidar_sensor = none then
    if fenv.sensorOk pos then
      let (sh, sim2) := st.sim.spawn lidarTransform
      ({ st with sim := sim2, lidar_sensor := some sh }, false)
    else
      ({ st with failed_spawn_ids := bb.id :: st.failed_spawn_ids }, true)
  else (st, false)

/-- The bb-spawn `try` block, entered when the id is neither spawned nor
failed.  Logs the attempt, then dispatches on the oracle outcome. -/
def attemptSpawn (fenv : FrameEnv) (fidx pos : ℕ) (bb : BBox)
    (t : Transform) (st : RState) : RState × Bool :=
  let st := { st with attempts := (fidx, bb.id) :: st.attempts }
  match fenv.spawnOut pos with
  | .exn => ({ st with failed_spawn_ids := bb.id :: st.failed_spawn_ids }, true)
  | .fail => ({ st with failed_spawn_ids := bb.id :: st.failed_spawn_ids }, false)
  | .ok1 => spawnSuccess fenv pos bb t t st
  | .ok2 =>
    spawnSuccess fenv pos bb
      ⟨⟨t.location.x, t.location.y, t.location.z + 2⟩, t.rotation⟩ t st

/-- The unconditional re-application `spawned_actors[actor_id].set_transform`
that follows the spawn block whenever the id is (still) in the mapping. -/
def reapplyTransform (st : RState) (bb : BBox) (tr : Transform) : RState :=
  match findActor st.spawned_actors bb.id with
  | some h => { st with sim := st.sim.setTransform h tr }
  | none => st

/-- Accumulator of the per-frame loop over `data['bounding_boxes']`:
the running state, `current_frame_actor_ids`, `ego_transform`, and the
position of the next entry. -/
structure BBAcc where
  st : RState
  ids : List String
  ego : Option Transform
  pos : ℕ

/-- Processing of one bounding-box entry by the replay loop.  The
spectator-camera mirror (a pure rendering aid touching only the spectator) is
not modelled.  `cont` is true when the `try` block ended in `continue`, which
skips the unconditional `set_transform` re-application. -/
def processBB (fenv : FrameEnv) (fidx : ℕ) (a : BBAcc) (bb : BBox) : BBAcc :=
  let transform : Transform := ⟨bb.location, bb.rotation⟩
  let ids' := bb.id :: a.ids
  let ego' := if bb.cls = "ego_vehicle" then some transform else a.ego
  let res :=
    if findActor a.st.spawned_actors bb.id = none ∧
        bb.id ∉ a.st.failed_spawn_ids then
      attemptSpawn fenv fidx a.pos bb transform a.st
    else (a.st, false)
  let st2 :=
    if res.2 = false then reapplyTransform res.1 bb transform
    else res.1
  { st := st2, ids := ids', ego := ego', pos := a.pos + 1 }

/-- Result of processing one frame: the new state, the re-serialized record
written to `anno_new`, and the injected entries / actor handles. -/
structure FrameResult where
  state : RState
  written : Frame
  phantoms : List BBox
  phantomHandles : List ℕ

/-- One iteration of the frame loop of `replay_and_save_scans`: fold over the
bounding-box list, inject phantom objects (only once an ego pose is known and
the configured maximum `hi` is positive), destroy actors absent from the
frame, apply the frame's weather, and destroy the injected actors again after
the augmented record is written.  The sensor read-out (`save_lidar_scan` on
the asynchronous buffer) is external I/O and does not feed back into this
state. -/
def processFrame (rc rs : ℚ → ℚ) (fenv : FrameEnv) (hi : ℕ) (fidx : ℕ)
    (st : RState) (frame : Frame) : FrameResult :=
  let a := frame.bounding_boxes.foldl (processBB fenv fidx) ⟨st, [], none, 0⟩
  let ph :=
    match a.ego with
    | some e =>
      if 0 < hi then
        spawn_random_objects rc rs fenv.draws fenv.phantomCount a.st.sim e fidx
      else ([], [], a.st.sim)
    | none => ([], [], a.st.sim)
  let toRemove := a.st.spawned_actors.filter fun p => decide (p.1 ∉ a.ids)
  let sim2 := toRemove.foldl (fun s p => s.destroy p.2) ph.2.2
  let spawned2 := a.st.spawned_actors.filter fun p => decide (p.1 ∈ a.ids)
  let written : Frame :=
    { frame with bounding_boxes := frame.bounding_boxes ++ ph.1 }
  let sim3 := ph.2.1.foldl (fun s h => s.destroy h) sim2
  { state := { a.st with sim := sim3, spawned_actors := spawned2,
                         weather := some frame.weather },
    written := written,
    phantoms := ph.1,
    phantomHandles := ph.2.1 }

/-- The frame loop over a list of frame records, threading the state and
collecting each frame's result. -/
def runFrames (rc rs : ℚ → ℚ) (env : ℕ → FrameEnv) (hi : ℕ) :
    RState → ℕ → List Frame → RState × List FrameResult
  | st, _, [] => (st, [])
  | st, idx, f :: fs =>
    let r := processFrame rc rs (env idx) hi idx st f
    let rest := runFrames rc rs env hi r.state (idx + 1) fs
    (rest.1, r :: rest.2)

/-- The state at the top of the frame loop: empty simulator store, empty
mapping and failed set, no sensor, given applied world settings. -/
def initState (s : Settings) : RState :=
  { sim := ⟨0, [], []⟩, spawned_actors := [], failed_spawn_ids := [],
    lidar_sensor := none, weather := none, settings := s, attempts := [] }

/-- The `finally` block of `replay_and_save_scans`: stop/destroy the sensor,
destroy every actor still in the mapping, then set `synchronous_mode = False`
on the local `settings` object and apply it.  (Per-destroy failures are
logged-and-ignored in the source; destroys are modelled as succeeding.) -/
def cleanup (st : RState) (settingsVar : Settings) : RState :=
  let st1 :=
    match st.lidar_sensor with
    | some h => { st with sim := st.sim.destroy h, lidar_sensor := none }
    | none => st
  let sim := st1.spawned_actors.foldl (fun s p => s.destroy p.2) st1.sim
  { st1 with sim := sim,
             settings := { settingsVar with synchronous_mode := false } }

/-- The prefix of the frame sequence the loop gets through:  `exitAt = some k`
models the loop aborting by exception at the boundary of frame `k`, `none` a
normal completion. -/
def processedFrames (frames : List Frame) (exitAt : Option ℕ) : List Frame :=
  match exitAt with
  | none => frames
  | some k => frames.take k

/-- One whole per-instance replay (the part of `replay_and_save_scans` after
the world is loaded): elect synchronous mode with a fixed 0.05 s delta, run
the frame loop, and run the guaranteed `finally` cleanup.  `orig` is the
world's settings before the instance starts. -/
def replayInstance (rc rs : ℚ → ℚ) (env : ℕ → FrameEnv) (hi : ℕ)
    (orig : Settings) (frames : List Frame) (exitAt : Option ℕ) :
    RState × List FrameResult :=
  let settingsVar : Settings :=
    { orig with synchronous_mode := true, fixed_delta_seconds := some (1/20) }
  let r := runFrames rc rs env hi (initState settingsVar) 0
    (processedFrames frames exitAt)
  (cleanup r.1 settingsVar, r.2)

/-- A written compressed point-cloud file: the quantization header fields
(per-axis offsets and scales) and the stored integer records.  The intensity
channel is present exactly when the input buffer had a fourth column. -/
structure LazFile where
  offset_x : ℚ
  offset_y : ℚ
  offset_z : ℚ
  scale_x : ℚ
  scale_y : ℚ
  scale_z : ℚ
  xs : List ℤ
  ys : List ℤ
  zs : List ℤ
  intens : Option (List ℕ)
deriving DecidableEq

/-- `np.min` over a nonempty list given as head and tail. -/
def listMin (a : ℚ) (l : List ℚ) : ℚ :=
  l.foldl min a

/-- The integer a scaled-and-offset coordinate is stored as (the point-cloud
library rounds `(value - offset) / scale` to the nearest integer). -/
def quantStore (scale offset c : ℚ) : ℤ :=
  round ((c - offset) / scale)

/-- The coordinate value read back from a stored integer. -/
def dequant (scale offset : ℚ) (i : ℤ) : ℚ :=
  (i : ℚ) * scale + offset

/-- `(v * 65535).astype(np.uint16)`: truncation toward zero, wrapped to 16
bits (for the captured sensor range `0 ≤ v`, truncation is `Int.floor`). -/
def intensity_u16 (v : ℚ) : ℕ :=
  (Int.toNat ⌊v * 65535⌋) % 65536

/-- `save_lidar_scan` of the source on an (N,3) or (N,4) buffer: `pts` are the
rows' first three columns, `icol` the fourth column when the buffer has one.
Offsets are the per-axis minima, scales fixed at 0.001 (1 mm).  An empty
buffer makes `np.min` raise, which the `except` turns into a failure
(`none`). -/
def save_lidar_scan (pts : List (ℚ × ℚ × ℚ)) (icol : Option (List ℚ)) :
    Option LazFile :=
  match pts with
  | [] => none
  | p :: rest =>
    let ox := listMin p.1 (rest.map fun r => r.1)
    let oy := listMin p.2.1 (rest.map fun r => r.2.1)
    let oz := listMin p.2.2 (rest.map fun r => r.2.2)
    some
      { offset_x := ox, offset_y := oy, offset_z := oz,
        scale_x := 1/1000, scale_y := 1/1000, scale_z := 1/1000,
        xs := (p :: rest).map fun r => quantStore (1/1000) ox r.1,
        ys := (p :: rest).map fun r => quantStore (1/1000) oy r.2.1,
        zs := (p :: rest).map fun r => quantStore (1/1000) oz r.2.2,
        intens := icol.map fun l => l.map intensity_u16 }

/-- Three-way zip (`np.vstack((las.x, las.y, las.z)).transpose()`). -/
def zip3 : List ℚ → List ℚ → List ℚ → List (ℚ × ℚ × ℚ)
  | a :: as_, b :: bs, c :: cs => (a, b, c) :: zip3 as_ bs cs
  | _, _, _ => []

/-- `load_laz_file` of `laz_to_obj.py`: reconstructs each coordinate from the
stored integer and the header's scale and offset, and returns the stored
intensity channel as raw integers. -/
def load_laz_file (f : LazFile) : List (ℚ × ℚ × ℚ) × Option (List ℕ) :=
  (zip3 (f.xs.map (dequant f.scale_x f.offset_x))
        (f.ys.map (dequant f.scale_y f.offset_y))
        (f.zs.map (dequant f.scale_z f.offset_z)),
   f.intens)

/-- Ghost measure: how many times the bb-spawn `try` block has been entered
for id `a` so far. -/
def attemptCount (st : RState) (a : String) : ℕ :=
  (st.attempts.filter fun p => decide (p.2 = a)).length

/-- The number read back from a most-significant-first decimal digit list. -/
def decVal (ds : List ℕ) : ℕ :=
  ds.foldl (fun a d => 10 * a + d) 0

/-- All synthesized phantom ids written over a sequence of frame results. -/
def phantomIdsOf : List FrameResult → List String
  | [] => []
  | r :: t => r.phantoms.map BBox.id ++ phantomIdsOf t

/-- Concrete all-zero weather block, used as test input. -/
def w0 : Weather :=
  ⟨0, 0, 0, 0, 0, 0, 0, 0, 0, 0⟩

/-- Concrete phantom draw (spawn blocked, no exception), used as test input. -/
def d0 : PhantomDraw :=
  ⟨0, 0, 0, 0, false, false, ⟨0, 0, 0⟩⟩

/-- Concrete phantom draw whose spawn succeeds, used as test input. -/
def dOk : PhantomDraw :=
  ⟨1, 0, 90, 0, true, false, ⟨1, 1, 1⟩⟩

/-- Environment where every bb spawn and every sensor attachment succeeds and
no phantom objects are drawn; used as test input. -/
def okEnv : FrameEnv :=
  ⟨fun _ => .ok1, fun _ => true, 0, fun _ => d0⟩

/-- Environment where bb spawns succeed but the sensor attachment raises;
used as test input. -/
def sensorFailEnv : FrameEnv :=
  ⟨fun _ => .ok1, fun _ => false, 0, fun _ => d0⟩

/-- Environment where every bb spawn attempt fails (both `try_spawn_actor`
calls return `None`); used as test input. -/
def failEnv : FrameEnv :=
  ⟨fun _ => .fail, fun _ => true, 0, fun _ => d0⟩

/-- A minimal bounding-box entry at the origin, used as test input. -/
def mkBB (cls id : String) : BBox :=
  ⟨cls, id, none, ⟨0, 0, 0⟩, ⟨0, 0, 0⟩, none, none⟩

/-- Identity stand-in for `np.cos` / `np.sin` in concrete test inputs. -/
def idQ : ℚ → ℚ := fun q => q

/-- A `vehicle`-class bounding-box entry at a given pose, for the A/B/C
reconciliation scenario. -/
def scenBB (id : String) (l : Loc) (r : Rot) : BBox :=
  ⟨"vehicle", id, none, l, r, none, none⟩

/-- The two-frame A/B/C scenario input: ids (A, B) in frame 0 at distinct
poses, ids (B, C) in frame 1 at distinct poses. -/
def scenFrames : List Frame :=
  [⟨[scenBB "A" ⟨1, 1, 0⟩ ⟨0, 0, 10⟩, scenBB "B" ⟨2, 2, 0⟩ ⟨0, 0, 20⟩], w0⟩,
   ⟨[scenBB "B" ⟨3, 3, 0⟩ ⟨0, 0, 30⟩, scenBB "C" ⟨4, 4, 0⟩ ⟨0, 0, 40⟩], w0⟩]

/-- The replay state after the first `n` frames of the A/B/C scenario, with
every spawn succeeding. -/
def scenState (n : ℕ) : RState :=
  (runFrames idQ idQ (fun _ => okEnv) 0 (initState ⟨false, none⟩) 0
    (scenFrames.take n)).1

/-! ## Blueprint resolution (C2) -/

/-- The tier-3 fallback resolves whenever the library has the fixed default
prop. -/
lemma class_fallback_ok (find : String → Option Blueprint)
    (hfountain : (find "static.prop.fountain").isSome)
    (actor_class : Option String) :
    ∃ bp, class_fallback find actor_class = .ok bp := by
  obtain ⟨f0, hf0⟩ := Option.isSome_iff_exists.mp hfountain
  unfold class_fallback
  cases hfb : find (match actor_class with
    | some c => ((CLASS_BLUEPRINT_MAP.lookup c).getD "static.prop.fountain")
    | none => "static.prop.fountain") with
  | some bp => exact ⟨bp, by simp [hfb]⟩
  | none => exact ⟨f0, by simp [hfb, hf0]⟩

/-- Claim C2: blueprint resolution is total.  Whenever the blueprint library
resolves the fixed fallback names the source hard-codes (the default prop
`static.prop.fountain`, the generic vehicle `vehicle.tesla.model3`, and the
five `MESH_ID_MAP` targets), `get_blueprint` returns some prototype for every
`(class, type_id)` pair — including an unrecognized class, an absent
`type_id`, and a `type_id` unknown to the library — and never lets an
exception escape: lookup failures are downgraded to the next fallback tier,
ending at the fixed default prop. -/
theorem C2_get_blueprint_total (find : String → Option Blueprint)
    (hfountain : (find "static.prop.fountain").isSome)
    (hvehicle : (find "vehicle.tesla.model3").isSome)
    (hmesh : ∀ kv ∈ MESH_ID_MAP, (find kv.2).isSome) :
    ∀ actor_class type_id,
      ∃ bp, get_blueprint find actor_class type_id = .ok bp := by
  intro cls tid
  obtain ⟨fv, hfv⟩ := Option.isSome_iff_exists.mp hvehicle
  match tid with
  | none => simpa [get_blueprint] using class_fallback_ok find hfountain cls
  | some t =>
    by_cases ht : t = ""
    · simpa [get_blueprint, ht] using class_fallback_ok find hfountain cls
    · by_cases hg : t.startsWith "/Game/"
      · cases hfind : MESH_ID_MAP.find? fun kv => strContains t kv.1 with
        | some kv =>
          obtain ⟨b, hb⟩ := Option.isSome_iff_exists.mp
            (hmesh kv (List.mem_of_find?_eq_some hfind))
          exact ⟨b, by simp [get_blueprint, ht, hg, hfind, hb]⟩
        | none =>
          exact ⟨fv, by simp [get_blueprint, ht, hg, hfind,
            show CLASS_BLUEPRINT_MAP.lookup "vehicle" =
              some "vehicle.tesla.model3" from rfl, hfv]⟩
      · cases hfind : find t with
        | some bp => exact ⟨bp, by simp [get_blueprint, ht, hg, hfind]⟩
        | none =>
          obtain ⟨b, hb⟩ := class_fallback_ok find hfountain cls
          exact ⟨b, by simp [get_blueprint, ht, hg, hfind, hb]⟩

/-- Witness for C2 at a concrete library (every name resolves to itself) and a
concrete input with an unrecognized class and a mesh-path `type_id`. -/
theorem C2_witness :
    ∃ bp, get_blueprint (fun s => some s) (some "mystery_class")
      (some "/Game/Carla/Static/Car/Vehicles/Lincoln_Mesh") = .ok bp :=
  C2_get_blueprint_total (fun s => some s) (by decide) (by decide)
    (by decide) (some "mystery_class")
    (some "/Game/Carla/Static/Car/Vehicles/Lincoln_Mesh")

/-! ## Frame-step structural lemmas -/

/-- With the configured maximum at 0, a frame injects nothing and its written
record is the original frame record. -/
lemma processFrame_zero_written (rc rs : ℚ → ℚ) (fenv : FrameEnv) (fidx : ℕ)
    (st : RState) (frame : Frame) :
    (processFrame rc rs fenv 0 fidx st frame).written = frame ∧
    (processFrame rc rs fenv 0 fidx st frame).phantoms = [] := by
  unfold processFrame
  rcases hego : (frame.bounding_boxes.foldl (processBB fenv fidx)
      ⟨st, [], none, 0⟩).ego with _ | e <;> simp [hego]

/-- The state after one frame records exactly that frame's weather block. -/
lemma processFrame_weather (rc rs : ℚ → ℚ) (fenv : FrameEnv) (hi fidx : ℕ)
    (st : RState) (frame : Frame) :
    (processFrame rc rs fenv hi fidx st frame).state.weather =
      some frame.weather := by
  unfold processFrame
  rcases hego : (frame.bounding_boxes.foldl (processBB fenv fidx)
      ⟨st, [], none, 0⟩).ego with _ | e <;> simp [hego]

/-- Unfolding of the frame loop on a snoc list. -/
lemma runFrames_append (rc rs : ℚ → ℚ) (env : ℕ → FrameEnv) (hi : ℕ)
    (l : List Frame) (f : Frame) :
    ∀ st idx,
      runFrames rc rs env hi st idx (l ++ [f]) =
        ((processFrame rc rs (env (idx + l.length)) hi (idx + l.length)
            (runFrames rc rs env hi st idx l).1 f).state,
         (runFrames rc rs env hi st idx l).2 ++
           [processFrame rc rs (env (idx + l.length)) hi (idx + l.length)
             (runFrames rc rs env hi st idx l).1 f]) := by
  induction l with
  | nil => intro st idx; simp [runFrames]
  | cons g t ih =>
    intro st idx
    have e : (g :: t) ++ [f] = g :: (t ++ [f]) := rfl
    rw [e]
    simp only [runFrames, ih, List.length_cons]
    have harith : idx + 1 + t.length = idx + (t.length + 1) := by omega
    simp [harith]

/-! ## C8: zero spawn range -/

/-- Claim C8: when the random-object count range is configured as (0,0) the
guard `spawn_frequency[1] > 0` is false, so no phantom entries are appended to
any frame's output record: the sequence of written records equals the original
frame sequence (in particular every written bounding-box list equals the
original frame's list). -/
theorem C8_zero_range_no_phantoms (rc rs : ℚ → ℚ) (env : ℕ → FrameEnv)
    (st : RState) (idx : ℕ) (frames : List Frame) :
    (runFrames rc rs env 0 st idx frames).2.map FrameResult.written =
      frames := by
  induction frames generalizing st idx with
  | nil => simp [runFrames]
  | cons f t ih =>
    simp [runFrames,
      (processFrame_zero_written rc rs (env idx) idx st f).1, ih]

/-! ## C6: weather replacement -/

/-- Claim C6: after processing frame N the world's weather parameters equal
exactly the ten-field weather block of frame N's record, with no blending
with the previous frame's values. -/
theorem C6_weather_exact (rc rs : ℚ → ℚ) (env : ℕ → FrameEnv) (hi : ℕ)
    (st : RState) (idx : ℕ) (frames : List Frame) (N : ℕ)
    (h : N < frames.length) :
    (runFrames rc rs env hi st idx (frames.take (N + 1))).1.weather =
      some frames[N].weather := by
  rw [← List.take_concat_get' frames N h, runFrames_append]
  exact processFrame_weather rc rs _ hi _ _ _

/-- Witness for C6: a concrete two-frame run; after the second frame the
recorded weather is the second frame's block. -/
theorem C6_witness :
    (runFrames idQ idQ (fun _ => okEnv) 0 (initState ⟨false, none⟩) 0
        ([⟨[], w0⟩, ⟨[], { w0 with cloudiness := 55 }⟩].take (1 + 1))).1.weather =
      some ({ w0 with cloudiness := 55 } : Weather) :=
  C6_weather_exact idQ idQ (fun _ => okEnv) 0 (initState ⟨false, none⟩) 0
    [⟨[], w0⟩, ⟨[], { w0 with cloudiness := 55 }⟩] 1 (by decide)

/-! ## C5: scan writer round trip -/

/-- One quantized coordinate is recovered within one quantization unit
(1 mm, and in fact within half a unit). -/
lemma quant_close (o c : ℚ) :
    |dequant (1/1000) o (quantStore (1/1000) o c) - c| ≤ 1/1000 := by
  unfold dequant quantStore
  have h := abs_sub_round ((c - o) / (1/1000))
  have e : ((round ((c - o) / (1/1000)) : ℤ) : ℚ) * (1/1000) + o - c =
      -(((c - o) / (1/1000) - (round ((c - o) / (1/1000)) : ℤ)) * (1/1000)) := by
    field_simp
    ring
  rw [e, abs_neg, abs_mul]
  have h1000 : |((1:ℚ)/1000)| = 1/1000 := by norm_num
  rw [h1000]
  nlinarith [abs_nonneg ((c - o) / (1/1000) - (round ((c - o) / (1/1000)) : ℤ))]

/-- The stored 16-bit intensity is within one quantization step below the
linear rescale `v * 65535` of the captured value. -/
lemma intensity_close (v : ℚ) (h0 : 0 ≤ v) (h1 : v ≤ 1) :
    0 ≤ v * 65535 - (intensity_u16 v : ℚ) ∧
      v * 65535 - (intensity_u16 v : ℚ) < 1 := by
  unfold intensity_u16
  have hnn : (0:ℤ) ≤ ⌊v * 65535⌋ := Int.floor_nonneg.mpr (by positivity)
  have hub : ⌊v * 65535⌋ ≤ 65535 := by
    have : v * 65535 ≤ ((65535 : ℤ) : ℚ) := by push_cast; nlinarith
    calc ⌊v * 65535⌋ ≤ ⌊((65535 : ℤ) : ℚ)⌋ := Int.floor_le_floor this
    _ = 65535 := Int.floor_intCast 65535
  have hmod : (Int.toNat ⌊v * 65535⌋) % 65536 = Int.toNat ⌊v * 65535⌋ :=
    Nat.mod_eq_of_lt (by omega)
  have hcast : ((Int.toNat ⌊v * 65535⌋ : ℕ) : ℚ) = ((⌊v * 65535⌋ : ℤ) : ℚ) := by
    exact_mod_cast congrArg (fun z : ℤ => (z : ℚ)) (Int.toNat_of_nonneg hnn)
  rw [hmod, hcast]
  constructor
  · have := Int.floor_le (v * 65535)
    linarith
  · have := Int.lt_floor_add_one (v * 65535)
    linarith

/-- `zip3` of three maps over the same list. -/
lemma zip3_map {α : Type} (f g h : α → ℚ) :
    ∀ l : List α, zip3 (l.map f) (l.map g) (l.map h) =
      l.map fun a => (f a, g a, h a) := by
  intro l
  induction l with
  | nil => rfl
  | cons a t ih => simp [zip3, ih]

/-- Claim C5: for every nonempty (N,3) or (N,4) point buffer whose intensity
column (when present) lies in the captured sensor range [0,1], writing it with
`save_lidar_scan` (minimum-corner offsets, fixed 0.001 scale per axis) and
reading the file back with `load_laz_file` recovers each x, y, z coordinate
within one quantization unit (1 mm), and recovers each intensity within one
quantization step of the linear rescale `v * 65535` into the 16-bit integer
range.  (An empty buffer makes the writer fail without producing a file,
hence the nonemptiness hypothesis.) -/
theorem C5_roundtrip (pts : List (ℚ × ℚ × ℚ)) (icol : Option (List ℚ))
    (hne : pts ≠ [])
    (hicol : ∀ iv ∈ icol, ∀ v ∈ iv, 0 ≤ v ∧ v ≤ 1) :
    ∃ laz, save_lidar_scan pts icol = some laz ∧
      (load_laz_file laz).1 = pts.map (fun r =>
        (dequant (1/1000) laz.offset_x (quantStore (1/1000) laz.offset_x r.1),
         dequant (1/1000) laz.offset_y (quantStore (1/1000) laz.offset_y r.2.1),
         dequant (1/1000) laz.offset_z
           (quantStore (1/1000) laz.offset_z r.2.2))) ∧
      (∀ o c : ℚ, |dequant (1/1000) o (quantStore (1/1000) o c) - c| ≤
        1/1000) ∧
      (load_laz_file laz).2 = icol.map (fun l => l.map intensity_u16) ∧
      (∀ iv ∈ icol, ∀ v ∈ iv,
        0 ≤ v * 65535 - (intensity_u16 v : ℚ) ∧
          v * 65535 - (intensity_u16 v : ℚ) < 1) := by
  match pts with
  | [] => exact absurd rfl hne
  | p :: rest =>
    refine ⟨_, rfl, ?_, fun o c => quant_close o c, rfl, ?_⟩
    · show zip3 _ _ _ = _
      rw [List.map_map, List.map_map, List.map_map]
      exact zip3_map _ _ _ (p :: rest)
    · intro iv hiv v hv
      exact intensity_close v (hicol iv hiv v hv).1 (hicol iv hiv v hv).2

/-- Witness for C5 at a concrete two-point buffer with intensity. -/
theorem C5_witness :
    ∃ laz, save_lidar_scan [(0, 0, 0), (1/2, 2, 3)] (some [1/2, 1]) =
        some laz ∧
      (load_laz_file laz).1 = [(0, 0, 0), (1/2, 2, 3)].map (fun r =>
        (dequant (1/1000) laz.offset_x (quantStore (1/1000) laz.offset_x r.1),
         dequant (1/1000) laz.offset_y (quantStore (1/1000) laz.offset_y r.2.1),
         dequant (1/1000) laz.offset_z
           (quantStore (1/1000) laz.offset_z r.2.2))) ∧
      (∀ o c : ℚ, |dequant (1/1000) o (quantStore (1/1000) o c) - c| ≤
        1/1000) ∧
      (load_laz_file laz).2 =
        (some [1/2, 1]).map (fun l => l.map intensity_u16) ∧
      (∀ iv ∈ (some [(1:ℚ)/2, 1] : Option (List ℚ)), ∀ v ∈ iv,
        0 ≤ v * 65535 - (intensity_u16 v : ℚ) ∧
          v * 65535 - (intensity_u16 v : ℚ) < 1) :=
  C5_roundtrip [(0, 0, 0), (1/2, 2, 3)] (some [1/2, 1]) (by decide)
    (by intro iv hiv v hv
        have hiv' : iv = [1/2, 1] := by
          cases hiv
          rfl
        subst hiv'
        simp only [List.mem_cons, List.not_mem_nil, or_false] at hv
        rcases hv with rfl | rfl <;> norm_num)


/-! ## Per-entry step analysis of the reconciliation loop -/

/-- `actor_id in spawned_actors` is membership in the key set. -/
lemma findActor_eq_none (m : List (String × ℕ)) (a : String) :
    findActor m a = none ↔ a ∉ keysOf m := by
  induction m with
  | nil => simp [findActor, keysOf]
  | cons p t ih =>
    obtain ⟨k, v⟩ := p
    by_cases hp : k = a
    · simp [findActor, keysOf, hp]
    · have hp' : ¬a = k := fun h => hp h.symm
      simp only [findActor, if_neg hp, ih, keysOf, List.map_cons,
        List.mem_cons]
      tauto

/-- The transform re-application changes only the simulator store. -/
lemma reapplyTransform_fields (st : RState) (bb : BBox) (tr : Transform) :
    (reapplyTransform st bb tr).spawned_actors = st.spawned_actors ∧
    (reapplyTransform st bb tr).failed_spawn_ids = st.failed_spawn_ids ∧
    (reapplyTransform st bb tr).attempts = st.attempts ∧
    (reapplyTransform st bb tr).lidar_sensor = st.lidar_sensor := by
  unfold reapplyTransform
  rcases hfa : findActor st.spawned_actors bb.id with _ | hdl <;> simp [hfa]

/-- Case analysis of the bb-spawn `try` block: the attempt is always logged,
and afterwards either the id was added to the failed set (both spawns failed,
or an exception), or the id was registered with a fresh handle — in which case
the failed set is unchanged unless the sensor attachment failed, which adds
the already-registered id to the failed set as well. -/
lemma attemptSpawn_cases (fenv : FrameEnv) (fidx pos : ℕ) (bb : BBox)
    (t : Transform) (st : RState) :
    (attemptSpawn fenv fidx pos bb t st).1.attempts =
      (fidx, bb.id) :: st.attempts ∧
    (((attemptSpawn fenv fidx pos bb t st).1.spawned_actors =
        st.spawned_actors ∧
      (attemptSpawn fenv fidx pos bb t st).1.failed_spawn_ids =
        bb.id :: st.failed_spawn_ids) ∨
     (∃ h, (attemptSpawn fenv fidx pos bb t st).1.spawned_actors =
        (bb.id, h) :: st.spawned_actors ∧
       ((attemptSpawn fenv fidx pos bb t st).1.failed_spawn_ids =
          st.failed_spawn_ids ∨
        (fenv.sensorOk pos = false ∧
         (attemptSpawn fenv fidx pos bb t st).1.failed_spawn_ids =
           bb.id :: st.failed_spawn_ids)))) := by
  unfold attemptSpawn spawnSuccess Sim.spawn
  dsimp only
  split
  · exact ⟨rfl, Or.inl ⟨rfl, rfl⟩⟩
  · exact ⟨rfl, Or.inl ⟨rfl, rfl⟩⟩
  · split
    · split
      · exact ⟨rfl, Or.inr ⟨st.sim.nextHandle, rfl, Or.inl rfl⟩⟩
      · next hs =>
        exact ⟨rfl, Or.inr ⟨st.sim.nextHandle, rfl,
          Or.inr ⟨by simpa using hs, rfl⟩⟩⟩
    · exact ⟨rfl, Or.inr ⟨st.sim.nextHandle, rfl, Or.inl rfl⟩⟩
  · split
    · split
      · exact ⟨rfl, Or.inr ⟨st.sim.nextHandle, rfl, Or.inl rfl⟩⟩
      · next hs =>
        exact ⟨rfl, Or.inr ⟨st.sim.nextHandle, rfl,
          Or.inr ⟨by simpa using hs, rfl⟩⟩⟩
    · exact ⟨rfl, Or.inr ⟨st.sim.nextHandle, rfl, Or.inl rfl⟩⟩

/-- Field-level case analysis of one bb step: either the guard
(`actor_id not in spawned_actors and actor_id not in failed_spawn_ids`) is
false and the mapping, failed set and attempt log are untouched, or the guard
holds and those fields are the ones produced by the spawn block. -/
lemma processBB_fields (fenv : FrameEnv) (fidx : ℕ) (a : BBAcc) (bb : BBox) :
    (processBB fenv fidx a bb).ids = bb.id :: a.ids ∧
    (processBB fenv fidx a bb).pos = a.pos + 1 ∧
    ((¬(findActor a.st.spawned_actors bb.id = none ∧
          bb.id ∉ a.st.failed_spawn_ids) ∧
      (processBB fenv fidx a bb).st.spawned_actors = a.st.spawned_actors ∧
      (processBB fenv fidx a bb).st.failed_spawn_ids =
        a.st.failed_spawn_ids ∧
      (processBB fenv fidx a bb).st.attempts = a.st.attempts) ∨
     ((findActor a.st.spawned_actors bb.id = none ∧
         bb.id ∉ a.st.failed_spawn_ids) ∧
      (processBB fenv fidx a bb).st.spawned_actors =
        (attemptSpawn fenv fidx a.pos bb ⟨bb.location, bb.rotation⟩
          a.st).1.spawned_actors ∧
      (processBB fenv fidx a bb).st.failed_spawn_ids =
        (attemptSpawn fenv fidx a.pos bb ⟨bb.location, bb.rotation⟩
          a.st).1.failed_spawn_ids ∧
      (processBB fenv fidx a bb).st.attempts =
        (attemptSpawn fenv fidx a.pos bb ⟨bb.location, bb.rotation⟩
          a.st).1.attempts)) := by
  unfold processBB
  dsimp only
  split
  · next hguard =>
    refine ⟨rfl, rfl, Or.inr ⟨hguard, ?_⟩⟩
    split
    · exact ⟨(reapplyTransform_fields _ bb _).1,
        (reapplyTransform_fields _ bb _).2.1,
        (reapplyTransform_fields _ bb _).2.2.1⟩
    · exact ⟨rfl, rfl, rfl⟩
  · next hguard =>
    refine ⟨rfl, rfl, Or.inl ⟨hguard, ?_⟩⟩
    split
    · exact ⟨(reapplyTransform_fields _ bb _).1,
        (reapplyTransform_fields _ bb _).2.1,
        (reapplyTransform_fields _ bb _).2.2.1⟩
    · next hfalse => exact absurd rfl hfalse

/-- Key set of a cons cell. -/
lemma keysOf_cons (k : String) (v : ℕ) (m : List (String × ℕ)) :
    keysOf ((k, v) :: m) = k :: keysOf m := rfl

/-- Monotonicity and boundedness of one bb step, plus coverage of the
processed id: afterwards the entry's id is tracked or failed. -/
lemma processBB_invariants (fenv : FrameEnv) (fidx : ℕ) (a : BBAcc)
    (bb : BBox) :
    (∀ x ∈ a.st.failed_spawn_ids,
       x ∈ (processBB fenv fidx a bb).st.failed_spawn_ids) ∧
    (∀ x ∈ (processBB fenv fidx a bb).st.failed_spawn_ids,
       x ∈ a.st.failed_spawn_ids ∨ x = bb.id) ∧
    (∀ x ∈ keysOf a.st.spawned_actors,
       x ∈ keysOf (processBB fenv fidx a bb).st.spawned_actors) ∧
    (∀ x ∈ keysOf (processBB fenv fidx a bb).st.spawned_actors,
       x ∈ keysOf a.st.spawned_actors ∨ x = bb.id) ∧
    (bb.id ∈ keysOf (processBB fenv fidx a bb).st.spawned_actors ∨
       bb.id ∈ (processBB fenv fidx a bb).st.failed_spawn_ids) := by
  obtain ⟨hids, hpos, hcase⟩ := processBB_fields fenv fidx a bb
  rcases hcase with ⟨hguard, hsp, hf, hat⟩ | ⟨hguard, hsp, hf, hat⟩
  · rw [hsp, hf]
    refine ⟨fun x hx => hx, fun x hx => Or.inl hx, fun x hx => hx,
      fun x hx => Or.inl hx, ?_⟩
    by_cases hk : findActor a.st.spawned_actors bb.id = none
    · have hnf : ¬bb.id ∉ a.st.failed_spawn_ids := fun hnf => hguard ⟨hk, hnf⟩
      exact Or.inr (not_not.mp hnf)
    · exact Or.inl (by
        by_contra hmem
        exact hk ((findActor_eq_none _ _).mpr hmem))
  · obtain ⟨hat', hsf⟩ :=
      attemptSpawn_cases fenv fidx a.pos bb ⟨bb.location, bb.rotation⟩ a.st
    rcases hsf with ⟨hsp2, hf2⟩ | ⟨h, hsp2, hf2⟩
    · rw [hsp, hf, hsp2, hf2]
      exact ⟨fun x hx => List.mem_cons_of_mem _ hx,
        fun x hx => (List.mem_cons.mp hx).elim (fun e => Or.inr e) Or.inl,
        fun x hx => hx,
        fun x hx => Or.inl hx,
        Or.inr (List.mem_cons_self _ _)⟩
    · rcases hf2 with hf2 | ⟨hsfalse, hf2⟩
      · rw [hsp, hf, hsp2, hf2, keysOf_cons]
        exact ⟨fun x hx => hx, fun x hx => Or.inl hx,
          fun x hx => List.mem_cons_of_mem _ hx,
          fun x hx => (List.mem_cons.mp hx).elim (fun e => Or.inr e) Or.inl,
          Or.inl (List.mem_cons_self _ _)⟩
      · rw [hsp, hf, hsp2, hf2, keysOf_cons]
        exact ⟨fun x hx => List.mem_cons_of_mem _ hx,
          fun x hx => (List.mem_cons.mp hx).elim (fun e => Or.inr e) Or.inl,
          fun x hx => List.mem_cons_of_mem _ hx,
          fun x hx => (List.mem_cons.mp hx).elim (fun e => Or.inr e) Or.inl,
          Or.inl (List.mem_cons_self _ _)⟩

/-- When the sensor attachment cannot fail, one bb step preserves the
disjointness of the mapping's key set and the failed set. -/
lemma processBB_disjoint (fenv : FrameEnv) (fidx : ℕ) (a : BBAcc) (bb : BBox)
    (hsens : fenv.sensorOk a.pos = true)
    (hdisj : ∀ x ∈ keysOf a.st.spawned_actors, x ∉ a.st.failed_spawn_ids) :
    ∀ x ∈ keysOf (processBB fenv fidx a bb).st.spawned_actors,
      x ∉ (processBB fenv fidx a bb).st.failed_spawn_ids := by
  obtain ⟨_, _, hcase⟩ := processBB_fields fenv fidx a bb
  rcases hcase with ⟨hguard, hsp, hf, _⟩ | ⟨⟨hnone, hnf⟩, hsp, hf, _⟩
  · rw [hsp, hf]
    exact hdisj
  · obtain ⟨_, hsf⟩ :=
      attemptSpawn_cases fenv fidx a.pos bb ⟨bb.location, bb.rotation⟩ a.st
    rcases hsf with ⟨hsp2, hf2⟩ | ⟨h, hsp2, hf2⟩
    · rw [hsp, hf, hsp2, hf2]
      intro x hx hmem
      rcases List.mem_cons.mp hmem with e | m
      · subst e
        exact (findActor_eq_none _ _).mp hnone hx
      · exact hdisj x hx m
    · rcases hf2 with hf2 | ⟨hsfalse, _⟩
      · rw [hsp, hf, hsp2, hf2, keysOf_cons]
        intro x hx hmem
        rcases List.mem_cons.mp hx with e | m
        · subst e
          exact hnf hmem
        · exact hdisj x m hmem
      · rw [hsens] at hsfalse
        cases hsfalse

/-- Invariants of the whole per-frame fold over the bounding-box list:
the failed set and key set are monotone and bounded by the frame's ids,
`current_frame_actor_ids` collects exactly the frame's ids, and every
processed id ends up tracked or failed. -/
lemma foldBB_invariants (fenv : FrameEnv) (fidx : ℕ) :
    ∀ (L : List BBox) (a : BBAcc),
      (∀ x ∈ a.st.failed_spawn_ids,
         x ∈ (L.foldl (processBB fenv fidx) a).st.failed_spawn_ids) ∧
      (∀ x ∈ (L.foldl (processBB fenv fidx) a).st.failed_spawn_ids,
         x ∈ a.st.failed_spawn_ids ∨ x ∈ L.map BBox.id) ∧
      (∀ x ∈ keysOf a.st.spawned_actors,
         x ∈ keysOf (L.foldl (processBB fenv fidx) a).st.spawned_actors) ∧
      (∀ x ∈ keysOf (L.foldl (processBB fenv fidx) a).st.spawned_actors,
         x ∈ keysOf a.st.spawned_actors ∨ x ∈ L.map BBox.id) ∧
      (∀ x, x ∈ (L.foldl (processBB fenv fidx) a).ids ↔
         x ∈ L.map BBox.id ∨ x ∈ a.ids) ∧
      (∀ x ∈ L.map BBox.id,
         x ∈ keysOf (L.foldl (processBB fenv fidx) a).st.spawned_actors ∨
         x ∈ (L.foldl (processBB fenv fidx) a).st.failed_spawn_ids)
  | [], a => by simp
  | bb :: T, a => by
    obtain ⟨f1, f2, f3, f4, f5⟩ := processBB_invariants fenv fidx a bb
    obtain ⟨hids, _, _⟩ := processBB_fields fenv fidx a bb
    obtain ⟨g1, g2, g3, g4, g5, g6⟩ :=
      foldBB_invariants fenv fidx T (processBB fenv fidx a bb)
    simp only [List.foldl_cons, List.map_cons]
    refine ⟨fun x hx => g1 x (f1 x hx), ?_, fun x hx => g3 x (f3 x hx),
      ?_, ?_, ?_⟩
    · intro x hx
      rcases g2 x hx with h | h
      · rcases f2 x h with h' | h'
        · exact Or.inl h'
        · exact Or.inr (List.mem_cons.mpr (Or.inl h'))
      · exact Or.inr (List.mem_cons_of_mem _ h)
    · intro x hx
      rcases g4 x hx with h | h
      · rcases f4 x h with h' | h'
        · exact Or.inl h'
        · exact Or.inr (List.mem_cons.mpr (Or.inl h'))
      · exact Or.inr (List.mem_cons_of_mem _ h)
    · intro x
      rw [g5 x, hids]
      simp only [List.mem_cons]
      tauto
    · intro x hx
      rcases List.mem_cons.mp hx with e | m
      · subst e
        rcases f5 with h | h
        · exact Or.inl (g3 _ h)
        · exact Or.inr (g1 _ h)
      · exact g6 x m

/-- When the sensor attachment cannot fail, the per-frame fold preserves
disjointness of the mapping's key set and the failed set. -/
lemma foldBB_disjoint (fenv : FrameEnv) (fidx : ℕ)
    (hsens : ∀ j, fenv.sensorOk j = true) :
    ∀ (L : List BBox) (a : BBAcc),
      (∀ x ∈ keysOf a.st.spawned_actors, x ∉ a.st.failed_spawn_ids) →
      ∀ x ∈ keysOf (L.foldl (processBB fenv fidx) a).st.spawned_actors,
        x ∉ (L.foldl (processBB fenv fidx) a).st.failed_spawn_ids
  | [], _, hd => hd
  | bb :: T, a, hd => by
    simp only [List.foldl_cons]
    exact foldBB_disjoint fenv fidx hsens T _
      (processBB_disjoint fenv fidx a bb (hsens a.pos) hd)

/-- The frame step's failed set and attempt log are the ones produced by the
bb fold, and its mapping is the fold's mapping restricted to the frame's
ids (`actors_to_remove` destroyed and deleted). -/
lemma processFrame_fields (rc rs : ℚ → ℚ) (fenv : FrameEnv) (hi fidx : ℕ)
    (st : RState) (frame : Frame) :
    (processFrame rc rs fenv hi fidx st frame).state.failed_spawn_ids =
      (frame.bounding_boxes.foldl (processBB fenv fidx)
        ⟨st, [], none, 0⟩).st.failed_spawn_ids ∧
    (processFrame rc rs fenv hi fidx st frame).state.attempts =
      (frame.bounding_boxes.foldl (processBB fenv fidx)
        ⟨st, [], none, 0⟩).st.attempts ∧
    (processFrame rc rs fenv hi fidx st frame).state.spawned_actors =
      (frame.bounding_boxes.foldl (processBB fenv fidx)
          ⟨st, [], none, 0⟩).st.spawned_actors.filter
        (fun p => decide (p.1 ∈ (frame.bounding_boxes.foldl
          (processBB fenv fidx) ⟨st, [], none, 0⟩).ids)) :=
  ⟨rfl, rfl, rfl⟩

/-- Key-set membership after the removal filter. -/
lemma keysOf_filter_mem (m : List (String × ℕ)) (ids : List String)
    (x : String) :
    x ∈ keysOf (m.filter fun p => decide (p.1 ∈ ids)) ↔
      x ∈ keysOf m ∧ x ∈ ids := by
  induction m with
  | nil => simp [keysOf]
  | cons p t ih =>
    obtain ⟨k, v⟩ := p
    by_cases hk : k ∈ ids
    · by_cases hx : x = k <;>
        simp [keysOf, List.filter_cons, hk, hx, ih] <;> tauto
    · by_cases hx : x = k
      · subst hx
        simp [keysOf, List.filter_cons, hk, ih]
      · simp [keysOf, List.filter_cons, hk, hx, ih]

/-- Sandwich after one frame: the mapping's keys are among the frame's ids,
and every id of the frame is tracked or failed. -/
lemma processFrame_keys (rc rs : ℚ → ℚ) (fenv : FrameEnv) (hi fidx : ℕ)
    (st : RState) (frame : Frame) :
    (∀ x ∈ keysOf
        (processFrame rc rs fenv hi fidx st frame).state.spawned_actors,
       x ∈ frameIds frame) ∧
    (∀ x ∈ frameIds frame,
       x ∈ keysOf
         (processFrame rc rs fenv hi fidx st frame).state.spawned_actors ∨
       x ∈ (processFrame rc rs fenv hi fidx st frame).state.failed_spawn_ids)
    := by
  obtain ⟨hf, ha, hsp⟩ := processFrame_fields rc rs fenv hi fidx st frame
  obtain ⟨g1, g2, g3, g4, g5, g6⟩ :=
    foldBB_invariants fenv fidx frame.bounding_boxes ⟨st, [], none, 0⟩
  constructor
  · intro x hx
    rw [hsp, keysOf_filter_mem] at hx
    rcases (g5 x).mp hx.2 with h | h
    · exact h
    · exact absurd h (List.not_mem_nil x)
  · intro x hx
    rcases g6 x hx with h | h
    · left
      rw [hsp, keysOf_filter_mem]
      exact ⟨h, (g5 x).mpr (Or.inl hx)⟩
    · right
      rw [hf]
      exact h

/-- When the sensor attachment cannot fail, one frame step turns the sandwich
into the exact reconciliation equality and preserves key/failed
disjointness. -/
lemma processFrame_keys_exact (rc rs : ℚ → ℚ) (fenv : FrameEnv)
    (hi fidx : ℕ) (st : RState) (frame : Frame)
    (hsens : ∀ j, fenv.sensorOk j = true)
    (hdisj : ∀ x ∈ keysOf st.spawned_actors, x ∉ st.failed_spawn_ids) :
    (∀ x, x ∈ keysOf
        (processFrame rc rs fenv hi fidx st frame).state.spawned_actors ↔
      (x ∈ frameIds frame ∧
       x ∉ (processFrame rc rs fenv hi fidx st frame).state.failed_spawn_ids))
    ∧
    (∀ x ∈ keysOf
        (processFrame rc rs fenv hi fidx st frame).state.spawned_actors,
       x ∉ (processFrame rc rs fenv hi fidx st frame).state.failed_spawn_ids)
    := by
  obtain ⟨hf, ha, hsp⟩ := processFrame_fields rc rs fenv hi fidx st frame
  have hd := foldBB_disjoint fenv fidx hsens frame.bounding_boxes
    ⟨st, [], none, 0⟩ hdisj
  have hdisj2 : ∀ x ∈ keysOf
      (processFrame rc rs fenv hi fidx st frame).state.spawned_actors,
      x ∉ (processFrame rc rs fenv hi fidx st frame).state.failed_spawn_ids
    := by
    intro x hx
    rw [hsp, keysOf_filter_mem] at hx
    rw [hf]
    exact hd x hx.1
  refine ⟨fun x => ⟨fun hx =>
    ⟨(processFrame_keys rc rs fenv hi fidx st frame).1 x hx,
     hdisj2 x hx⟩, ?_⟩, hdisj2⟩
  rintro ⟨hin, hnf⟩
  rcases (processFrame_keys rc rs fenv hi fidx st frame).2 x hin with h | h
  · exact h
  · exact absurd h hnf

/-- When the sensor attachment cannot fail, the frame loop preserves
key/failed disjointness from any state enjoying it. -/
lemma runFrames_disjoint (rc rs : ℚ → ℚ) (env : ℕ → FrameEnv) (hi : ℕ)
    (hsens : ∀ k j, (env k).sensorOk j = true) :
    ∀ (frames : List Frame) (st : RState) (idx : ℕ),
      (∀ x ∈ keysOf st.spawned_actors, x ∉ st.failed_spawn_ids) →
      ∀ x ∈ keysOf (runFrames rc rs env hi st idx frames).1.spawned_actors,
        x ∉ (runFrames rc rs env hi st idx frames).1.failed_spawn_ids
  | [], _, _, hd => hd
  | f :: t, st, idx, hd => by
    simp only [runFrames]
    exact runFrames_disjoint rc rs env hi hsens t _ (idx + 1)
      ((processFrame_keys_exact rc rs (env idx) hi idx st f (hsens idx) hd).2)

/-- Run-level exact reconciliation under infallible sensor attachment. -/
lemma runFrames_keys_exact (rc rs : ℚ → ℚ) (env : ℕ → FrameEnv) (hi : ℕ)
    (s0 : Settings) (frames : List Frame) (N : ℕ) (h : N < frames.length)
    (hsens : ∀ k j, (env k).sensorOk j = true) :
    ∀ x, x ∈ keysOf (runFrames rc rs env hi (initState s0) 0
        (frames.take (N + 1))).1.spawned_actors ↔
      (x ∈ frameIds frames[N] ∧
       x ∉ (runFrames rc rs env hi (initState s0) 0
         (frames.take (N + 1))).1.failed_spawn_ids) := by
  rw [← List.take_concat_get' frames N h, runFrames_append]
  exact (processFrame_keys_exact rc rs _ hi _ _ _ (hsens _)
    (runFrames_disjoint rc rs env hi hsens (frames.take N) _ 0
      (fun x hx => by simp [initState, keysOf] at hx))).1



/-- The A/B/C scenario: after frame 1, A's handle (0) is destroyed and its
mapping entry removed, B keeps its handle (1) with the transform overwritten
to the second frame's recorded pose, and C's handle (2) is newly created
(frame 0 ended with `nextHandle = 2` and no entry for C). -/
lemma scenario_ABC :
    findActor (scenState 2).spawned_actors "A" = none ∧
    (0 : ℕ) ∈ (scenState 2).sim.destroyed ∧
    findActor (scenState 1).spawned_actors "A" = some 0 ∧
    findActor (scenState 1).spawned_actors "B" = some 1 ∧
    findActor (scenState 2).spawned_actors "B" = some 1 ∧
    (scenState 2).sim.transformOf 1 = some ⟨⟨3, 3, 0⟩, ⟨0, 0, 30⟩⟩ ∧
    findActor (scenState 2).spawned_actors "C" = some 2 ∧
    findActor (scenState 1).spawned_actors "C" = none ∧
    (scenState 1).sim.nextHandle = 2 := by
  decide

/-- Claim C1 (amended): after processing frame N, (a) the key set of
`spawned_actors` is always sandwiched: every key is an id of frame N, and
every id of frame N is either a key or in the failed set (so
ids(N) minus failed ⊆ keys ⊆ ids(N)); (b) the claimed exact equality
keys = ids(N) minus failed holds whenever the sensor attachment never raises
(the only code path that registers an actor and then adds its id to the
failed set); (c) the A/B/C scenario holds as stated: A's handle is destroyed
and removed, B's persists with its transform overwritten to the second
frame's recorded pose, and C's handle is newly created. -/
theorem C1_reconciliation_amended :
    (∀ (rc rs : ℚ → ℚ) (fenv : FrameEnv) (hi fidx : ℕ) (st : RState)
        (frame : Frame),
      (∀ x ∈ keysOf
          (processFrame rc rs fenv hi fidx st frame).state.spawned_actors,
         x ∈ frameIds frame) ∧
      (∀ x ∈ frameIds frame,
         x ∈ keysOf
             (processFrame rc rs fenv hi fidx st frame).state.spawned_actors
         ∨ x ∈
           (processFrame rc rs fenv hi fidx st frame).state.failed_spawn_ids))
    ∧
    (∀ (rc rs : ℚ → ℚ) (env : ℕ → FrameEnv) (hi : ℕ) (s0 : Settings)
        (frames : List Frame) (N : ℕ) (h : N < frames.length),
      (∀ k j, (env k).sensorOk j = true) →
      ∀ x, x ∈ keysOf (runFrames rc rs env hi (initState s0) 0
          (frames.take (N + 1))).1.spawned_actors ↔
        (x ∈ frameIds frames[N] ∧
         x ∉ (runFrames rc rs env hi (initState s0) 0
           (frames.take (N + 1))).1.failed_spawn_ids)) ∧
    (findActor (scenState 2).spawned_actors "A" = none ∧
     (0 : ℕ) ∈ (scenState 2).sim.destroyed ∧
     findActor (scenState 1).spawned_actors "A" = some 0 ∧
     findActor (scenState 1).spawned_actors "B" = some 1 ∧
     findActor (scenState 2).spawned_actors "B" = some 1 ∧
     (scenState 2).sim.transformOf 1 = some ⟨⟨3, 3, 0⟩, ⟨0, 0, 30⟩⟩ ∧
     findActor (scenState 2).spawned_actors "C" = some 2 ∧
     findActor (scenState 1).spawned_actors "C" = none ∧
     (scenState 1).sim.nextHandle = 2) := by
  refine ⟨?_, ?_, scenario_ABC⟩
  · intro rc rs fenv hi fidx st frame
    exact processFrame_keys rc rs fenv hi fidx st frame
  · intro rc rs env hi s0 frames N h hsens
    exact runFrames_keys_exact rc rs env hi s0 frames N h hsens

/-- Claim C1, as stated, fails on the code: in a one-frame replay whose only
entry is an ego vehicle that spawns successfully but whose sensor attachment
raises, the id ends up in `spawned_actors` AND in `failed_spawn_ids`, so the
key set does not equal the frame's ids minus the failed set. -/
theorem C1_counterexample :
    ¬ ("E" ∈ keysOf (runFrames idQ idQ (fun _ => sensorFailEnv) 0
          (initState ⟨false, none⟩) 0
          [⟨[mkBB "ego_vehicle" "E"], w0⟩]).1.spawned_actors ↔
       ("E" ∈ frameIds ⟨[mkBB "ego_vehicle" "E"], w0⟩ ∧
        "E" ∉ (runFrames idQ idQ (fun _ => sensorFailEnv) 0
          (initState ⟨false, none⟩) 0
          [⟨[mkBB "ego_vehicle" "E"], w0⟩]).1.failed_spawn_ids)) := by
  decide

/-- Witness for C1 (amended) at a concrete one-frame replay with an
infallible sensor. -/
theorem C1_witness :
    "X" ∈ keysOf (runFrames idQ idQ (fun _ => okEnv) 0
        (initState ⟨false, none⟩) 0
        ([⟨[mkBB "vehicle" "X"], w0⟩].take (0 + 1))).1.spawned_actors ↔
      ("X" ∈ frameIds ⟨[mkBB "vehicle" "X"], w0⟩ ∧
       "X" ∉ (runFrames idQ idQ (fun _ => okEnv) 0
         (initState ⟨false, none⟩) 0
         ([⟨[mkBB "vehicle" "X"], w0⟩].take (0 + 1))).1.failed_spawn_ids) :=
  C1_reconciliation_amended.2.1 idQ idQ (fun _ => okEnv) 0 ⟨false, none⟩
    [⟨[mkBB "vehicle" "X"], w0⟩] 0 (by decide) (fun _ _ => rfl) "X"

/-! ## C4: attempt counting -/

/-- One bb step and the attempt log: an id already tracked or failed gets no
new attempt (and stays tracked-or-failed); any id gains at most one logged
attempt; and an id whose attempt log grew is tracked-or-failed afterwards. -/
lemma processBB_attempts_step (fenv : FrameEnv) (fidx : ℕ) (a : BBAcc)
    (bb : BBox) (x : String) :
    ((x ∈ keysOf a.st.spawned_actors ∨ x ∈ a.st.failed_spawn_ids) →
      ((processBB fenv fidx a bb).st.attempts.filter
          (fun p => decide (p.2 = x)) =
        a.st.attempts.filter (fun p => decide (p.2 = x)) ∧
       (x ∈ keysOf (processBB fenv fidx a bb).st.spawned_actors ∨
        x ∈ (processBB fenv fidx a bb).st.failed_spawn_ids))) ∧
    (((processBB fenv fidx a bb).st.attempts.filter
        (fun p => decide (p.2 = x))).length ≤
      (a.st.attempts.filter (fun p => decide (p.2 = x))).length + 1) ∧
    (((processBB fenv fidx a bb).st.attempts.filter
        (fun p => decide (p.2 = x))).length ≠
      (a.st.attempts.filter (fun p => decide (p.2 = x))).length →
      (x ∈ keysOf (processBB fenv fidx a bb).st.spawned_actors ∨
       x ∈ (processBB fenv fidx a bb).st.failed_spawn_ids)) := by
  obtain ⟨f1, f2, f3, f4, f5⟩ := processBB_invariants fenv fidx a bb
  obtain ⟨_, _, hcase⟩ := processBB_fields fenv fidx a bb
  rcases hcase with ⟨hguard, hsp, hf, hat⟩ | ⟨⟨hnone, hnf⟩, hsp, hf, hat⟩
  · rw [hat]
    refine ⟨fun hcov => ⟨rfl, ?_⟩, by omega, fun hne => absurd rfl hne⟩
    rcases hcov with h | h
    · exact Or.inl (f3 x h)
    · exact Or.inr (f1 x h)
  · obtain ⟨hat2, _⟩ :=
      attemptSpawn_cases fenv fidx a.pos bb ⟨bb.location, bb.rotation⟩ a.st
    rw [hat, hat2]
    by_cases hbx : bb.id = x
    · subst hbx
      refine ⟨fun hcov => ?_, ?_, fun _ => f5⟩
      · rcases hcov with h | h
        · exact absurd h ((findActor_eq_none _ _).mp hnone)
        · exact absurd h hnf
      · simp [List.filter_cons]
    · have hdec : (decide ((fidx, bb.id).2 = x)) = false := by
        simp [hbx]
      refine ⟨fun hcov => ⟨?_, ?_⟩, ?_, fun hne => ?_⟩
      · simp [List.filter_cons, hdec]
      · rcases hcov with h | h
        · exact Or.inl (f3 x h)
        · exact Or.inr (f1 x h)
      · simp [List.filter_cons, hdec]
      · exact absurd (by simp [List.filter_cons, hdec]) hne

/-- Over a whole frame's fold, an id already tracked or failed gains no
logged attempt, and stays tracked-or-failed. -/
lemma foldBB_attempts_covered (fenv : FrameEnv) (fidx : ℕ) :
    ∀ (L : List BBox) (a : BBAcc) (x : String),
      (x ∈ keysOf a.st.spawned_actors ∨ x ∈ a.st.failed_spawn_ids) →
      ((L.foldl (processBB fenv fidx) a).st.attempts.filter
          (fun p => decide (p.2 = x)) =
        a.st.attempts.filter (fun p => decide (p.2 = x))) ∧
      (x ∈ keysOf (L.foldl (processBB fenv fidx) a).st.spawned_actors ∨
       x ∈ (L.foldl (processBB fenv fidx) a).st.failed_spawn_ids)
  | [], _, _, hcov => ⟨rfl, hcov⟩
  | bb :: T, a, x, hcov => by
    simp only [List.foldl_cons]
    obtain ⟨heq, hcov'⟩ :=
      (processBB_attempts_step fenv fidx a bb x).1 hcov
    obtain ⟨heq2, hcov2⟩ :=
      foldBB_attempts_covered fenv fidx T (processBB fenv fidx a bb) x hcov'
    exact ⟨heq2.trans heq, hcov2⟩

/-- Over a whole frame's fold, any id gains at most one logged attempt. -/
lemma foldBB_attempts_bound (fenv : FrameEnv) (fidx : ℕ) :
    ∀ (L : List BBox) (a : BBAcc) (x : String),
      ((L.foldl (processBB fenv fidx) a).st.attempts.filter
          (fun p => decide (p.2 = x))).length ≤
        (a.st.attempts.filter (fun p => decide (p.2 = x))).length + 1
  | [], _, _ => by simp
  | bb :: T, a, x => by
    simp only [List.foldl_cons]
    obtain ⟨hcstep, hbstep, hgrow⟩ := processBB_attempts_step fenv fidx a bb x
    by_cases hne : ((processBB fenv fidx a bb).st.attempts.filter
        (fun p => decide (p.2 = x))).length =
      (a.st.attempts.filter (fun p => decide (p.2 = x))).length
    · have := foldBB_attempts_bound fenv fidx T (processBB fenv fidx a bb) x
      omega
    · have hcov := hgrow hne
      have := (foldBB_attempts_covered fenv fidx T
        (processBB fenv fidx a bb) x hcov).1
      rw [this]
      omega

/-- Frame level: an id already in the failed set gains no attempt during the
frame and stays failed; any id gains at most one attempt per frame. -/
lemma processFrame_attempts (rc rs : ℚ → ℚ) (fenv : FrameEnv) (hi fidx : ℕ)
    (st : RState) (frame : Frame) (x : String) :
    (x ∈ st.failed_spawn_ids →
      attemptCount (processFrame rc rs fenv hi fidx st frame).state x =
        attemptCount st x ∧
      x ∈ (processFrame rc rs fenv hi fidx st frame).state.failed_spawn_ids)
    ∧
    attemptCount (processFrame rc rs fenv hi fidx st frame).state x ≤
      attemptCount st x + 1 := by
  obtain ⟨hf, ha, _⟩ := processFrame_fields rc rs fenv hi fidx st frame
  constructor
  · intro hx
    obtain ⟨heq, hcov⟩ := foldBB_attempts_covered fenv fidx
      frame.bounding_boxes ⟨st, [], none, 0⟩ x (Or.inr hx)
    refine ⟨?_, ?_⟩
    · unfold attemptCount
      rw [ha, heq]
    · obtain ⟨g1, _, _, _, _, _⟩ := foldBB_invariants fenv fidx
        frame.bounding_boxes ⟨st, [], none, 0⟩
      rw [hf]
      exact g1 x hx
  · unfold attemptCount
    rw [ha]
    exact foldBB_attempts_bound fenv fidx frame.bounding_boxes
      ⟨st, [], none, 0⟩ x

/-- Run level: once an id is in the failed set, the rest of the replay never
attempts it again (the attempt count stays constant) and it stays failed. -/
lemma runFrames_attempts_stable (rc rs : ℚ → ℚ) (env : ℕ → FrameEnv)
    (hi : ℕ) :
    ∀ (frames : List Frame) (st : RState) (idx : ℕ) (x : String),
      x ∈ st.failed_spawn_ids →
      attemptCount (runFrames rc rs env hi st idx frames).1 x =
        attemptCount st x ∧
      x ∈ (runFrames rc rs env hi st idx frames).1.failed_spawn_ids
  | [], _, _, _, hx => ⟨rfl, hx⟩
  | f :: t, st, idx, x, hx => by
    simp only [runFrames]
    obtain ⟨heq, hmem⟩ :=
      (processFrame_attempts rc rs (env idx) hi idx st f x).1 hx
    obtain ⟨heq2, hmem2⟩ := runFrames_attempts_stable rc rs env hi t
      (processFrame rc rs (env idx) hi idx st f).state (idx + 1) x hmem
    exact ⟨heq2.trans heq, hmem2⟩

/-- Claim C4 (amended): an id once added to the failed-spawn set is never
attempted again in the same replay — from any state in which the id is
already failed, the whole remaining frame sequence leaves its spawn-attempt
count unchanged and keeps it failed — and within any single frame an id is
attempted at most once.  (The overall per-replay count can still exceed 1:
an id that spawns successfully, disappears — its handle destroyed and
removed — and reappears later is attempted again without ever having been in
the failed set.) -/
theorem C4_no_retry_after_failure :
    (∀ (rc rs : ℚ → ℚ) (env : ℕ → FrameEnv) (hi : ℕ) (frames : List Frame)
        (st : RState) (idx : ℕ) (x : String),
      x ∈ st.failed_spawn_ids →
      attemptCount (runFrames rc rs env hi st idx frames).1 x =
        attemptCount st x ∧
      x ∈ (runFrames rc rs env hi st idx frames).1.failed_spawn_ids) ∧
    (∀ (rc rs : ℚ → ℚ) (fenv : FrameEnv) (hi fidx : ℕ) (st : RState)
        (frame : Frame) (x : String),
      attemptCount (processFrame rc rs fenv hi fidx st frame).state x ≤
        attemptCount st x + 1) :=
  ⟨fun rc rs env hi frames st idx x hx =>
    runFrames_attempts_stable rc rs env hi frames st idx x hx,
   fun rc rs fenv hi fidx st frame x =>
    (processFrame_attempts rc rs fenv hi fidx st frame x).2⟩

/-- Claim C4, as stated, fails on the code: id A spawns successfully in
frame 0, disappears in frame 1 (handle destroyed, entry removed), reappears
in frame 2 where both spawn attempts fail, so A is in the failed set with a
spawn-attempt count of 2. -/
theorem C4_counterexample :
    "A" ∈ (runFrames idQ idQ (fun k => if k = 2 then failEnv else okEnv) 0
        (initState ⟨false, none⟩) 0
        [⟨[mkBB "vehicle" "A"], w0⟩, ⟨[], w0⟩,
         ⟨[mkBB "vehicle" "A"], w0⟩]).1.failed_spawn_ids ∧
    ¬ (attemptCount (runFrames idQ idQ
        (fun k => if k = 2 then failEnv else okEnv) 0
        (initState ⟨false, none⟩) 0
        [⟨[mkBB "vehicle" "A"], w0⟩, ⟨[], w0⟩,
         ⟨[mkBB "vehicle" "A"], w0⟩]).1 "A" ≤ 1) := by
  decide

/-- Witness for C4 (amended) at a one-frame replay of an id already in the
failed set. -/
theorem C4_witness :
    attemptCount (runFrames idQ idQ (fun _ => okEnv) 0
        { initState ⟨false, none⟩ with failed_spawn_ids := ["F"] } 0
        [⟨[mkBB "vehicle" "F"], w0⟩]).1 "F" =
      attemptCount
        { initState ⟨false, none⟩ with failed_spawn_ids := ["F"] } "F" ∧
    "F" ∈ (runFrames idQ idQ (fun _ => okEnv) 0
        { initState ⟨false, none⟩ with failed_spawn_ids := ["F"] } 0
        [⟨[mkBB "vehicle" "F"], w0⟩]).1.failed_spawn_ids :=
  C4_no_retry_after_failure.1 idQ idQ (fun _ => okEnv) 0
    [⟨[mkBB "vehicle" "F"], w0⟩]
    { initState ⟨false, none⟩ with failed_spawn_ids := ["F"] } 0 "F"
    (by decide)

/-! ## C3: guaranteed cleanup -/

/-- Destroyed handles persist through a fold of destroys. -/
lemma destroy_fold_destroyed_mono {α : Type} (g : α → ℕ) :
    ∀ (l : List α) (s : Sim) (h : ℕ), h ∈ s.destroyed →
      h ∈ (l.foldl (fun s a => s.destroy (g a)) s).destroyed
  | [], _, _, hh => hh
  | a :: t, s, h, hh => by
    simp only [List.foldl_cons]
    exact destroy_fold_destroyed_mono g t _ h (List.mem_cons_of_mem _ hh)

/-- A live handle of a post-destroy store was live before and is not the
destroyed one. -/
lemma liveHandles_destroy (s : Sim) (k h : ℕ) :
    h ∈ liveHandles (s.destroy k) → h ∈ liveHandles s ∧ h ≠ k := by
  unfold liveHandles Sim.destroy
  intro hh
  simp only [List.mem_map, List.mem_filter, decide_eq_true_eq] at hh
  obtain ⟨p, ⟨hp, hpk⟩, hph⟩ := hh
  exact ⟨List.mem_map.mpr ⟨p, hp, hph⟩, hph ▸ hpk⟩

/-- A handle absent from the live set stays absent through a fold of
destroys. -/
lemma destroy_fold_not_live {α : Type} (g : α → ℕ) :
    ∀ (l : List α) (s : Sim) (h : ℕ), h ∉ liveHandles s →
      h ∉ liveHandles (l.foldl (fun s a => s.destroy (g a)) s)
  | [], _, _, hh => hh
  | a :: t, s, h, hh => by
    simp only [List.foldl_cons]
    exact destroy_fold_not_live g t _ h
      (fun hmem => hh (liveHandles_destroy s (g a) h hmem).1)

/-- Every element of a destroy fold's input ends up destroyed and not
live. -/
lemma destroy_fold_hits {α : Type} (g : α → ℕ) :
    ∀ (l : List α) (s : Sim) (x : α), x ∈ l →
      g x ∈ (l.foldl (fun s a => s.destroy (g a)) s).destroyed ∧
      g x ∉ liveHandles (l.foldl (fun s a => s.destroy (g a)) s)
  | [], _, x, hx => absurd hx (List.not_mem_nil x)
  | a :: t, s, x, hx => by
    simp only [List.foldl_cons]
    rcases List.mem_cons.mp hx with rfl | hmem
    · constructor
      · exact destroy_fold_destroyed_mono g t _ _ (List.mem_cons_self _ _)
      · exact destroy_fold_not_live g t _ _
          (fun hmem => (liveHandles_destroy s (g x) (g x) hmem).2 rfl)
    · exact destroy_fold_hits g t _ x hmem

/-- Claim C3 (amended): however the per-instance loop exits (normal
completion or exception at any frame boundary), the guaranteed-cleanup block
destroys the attached sensor and every actor handle still in the mapping —
afterwards they are in the destroyed log and not live — and applies settings
with the stepping (synchronous) mode set to disabled.  It does NOT restore
the mode to the setting the world had before the instance started: the final
synchronous mode is unconditionally `false`, which coincides with the
original setting only when the world started in asynchronous mode. -/
theorem C3_cleanup_amended :
    ∀ (rc rs : ℚ → ℚ) (env : ℕ → FrameEnv) (hi : ℕ) (orig : Settings)
      (frames : List Frame) (exitAt : Option ℕ),
      ((replayInstance rc rs env hi orig frames
          exitAt).1.settings.synchronous_mode = false) ∧
      (∀ hnd,
        (runFrames rc rs env hi (initState ⟨true, some (1/20)⟩) 0
            (processedFrames frames exitAt)).1.lidar_sensor = some hnd →
        hnd ∈ (replayInstance rc rs env hi orig frames
          exitAt).1.sim.destroyed ∧
        hnd ∉ liveHandles (replayInstance rc rs env hi orig frames
          exitAt).1.sim) ∧
      (∀ p ∈ (runFrames rc rs env hi (initState ⟨true, some (1/20)⟩) 0
            (processedFrames frames exitAt)).1.spawned_actors,
        p.2 ∈ (replayInstance rc rs env hi orig frames
          exitAt).1.sim.destroyed ∧
        p.2 ∉ liveHandles (replayInstance rc rs env hi orig frames
          exitAt).1.sim) := by
  intro rc rs env hi orig frames exitAt
  unfold replayInstance cleanup
  dsimp only
  refine ⟨rfl, ?_, ?_⟩
  · intro hnd hsens
    rw [hsens]
    constructor
    · exact destroy_fold_destroyed_mono (fun q : String × ℕ => q.2) _ _ hnd
        (List.mem_cons_self _ _)
    · exact destroy_fold_not_live (fun q : String × ℕ => q.2) _ _ hnd
        (fun hmem => (liveHandles_destroy _ hnd hnd hmem).2 rfl)
  · intro p hp
    rcases hsens : (runFrames rc rs env hi (initState ⟨true, some (1/20)⟩) 0
        (processedFrames frames exitAt)).1.lidar_sensor with _ | hnd <;>
      exact destroy_fold_hits (fun q : String × ℕ => q.2) _ _ p hp

/-- Claim C3, as stated, fails on the code: for a world that was already in
synchronous mode before the instance (original `synchronous_mode = true`),
the cleanup block applies `synchronous_mode = False` instead of restoring the
original setting. -/
theorem C3_counterexample :
    ¬ ((replayInstance idQ idQ (fun _ => okEnv) 0 ⟨true, none⟩ []
        none).1.settings.synchronous_mode =
      (Settings.mk true none).synchronous_mode) := by
  decide

/-- Witness for C3 (amended) at a concrete one-frame instance that attached
the sensor (handle 1) and tracked the ego actor (handle 0): both are
destroyed and not live after cleanup. -/
theorem C3_witness :
    (1 ∈ (replayInstance idQ idQ (fun _ => okEnv) 0 ⟨true, none⟩
        [⟨[mkBB "ego_vehicle" "E"], w0⟩] none).1.sim.destroyed ∧
     1 ∉ liveHandles (replayInstance idQ idQ (fun _ => okEnv) 0 ⟨true, none⟩
        [⟨[mkBB "ego_vehicle" "E"], w0⟩] none).1.sim) ∧
    ((("E", 0) : String × ℕ).2 ∈ (replayInstance idQ idQ (fun _ => okEnv) 0
        ⟨true, none⟩ [⟨[mkBB "ego_vehicle" "E"], w0⟩] none).1.sim.destroyed ∧
     (("E", 0) : String × ℕ).2 ∉ liveHandles (replayInstance idQ idQ
        (fun _ => okEnv) 0 ⟨true, none⟩
        [⟨[mkBB "ego_vehicle" "E"], w0⟩] none).1.sim) :=
  ⟨(C3_cleanup_amended idQ idQ (fun _ => okEnv) 0 ⟨true, none⟩
      [⟨[mkBB "ego_vehicle" "E"], w0⟩] none).2.1 1 (by decide),
   (C3_cleanup_amended idQ idQ (fun _ => okEnv) 0 ⟨true, none⟩
      [⟨[mkBB "ego_vehicle" "E"], w0⟩] none).2.2 ("E", 0) (by decide)⟩

/-! ## Phantom-object injection (C7, C9, C10) -/

/-- One phantom iteration, as a conditional append: on success it records the
entry, appends the fresh handle, and spawns the prop with physics off;
otherwise it leaves the accumulator unchanged. -/
lemma phantomStep_proj (rc rs : ℚ → ℚ) (draws : ℕ → PhantomDraw)
    (ego : Transform) (fidx : ℕ) (acc : List BBox × List ℕ × Sim) (i : ℕ) :
    ((phantomStep rc rs draws ego fidx acc i).1 =
      if phantomOk draws i
      then acc.1 ++ [mkPhantomAnno rc rs draws ego fidx i] else acc.1) ∧
    ((phantomStep rc rs draws ego fidx acc i).2.1 =
      if phantomOk draws i
      then acc.2.1 ++ [acc.2.2.nextHandle] else acc.2.1) := by
  unfold phantomStep phantomOk Sim.spawn
  by_cases hexn : (draws i).exnFlag <;>
    by_cases hsp : (draws i).spawnOk <;>
    simp [hexn, hsp]

/-- Closed form of the recorded entries of the phantom loop: the map of
`mkPhantomAnno` over the successful iteration indices, in order. -/
lemma phantom_fold_annos (rc rs : ℚ → ℚ) (draws : ℕ → PhantomDraw)
    (ego : Transform) (fidx : ℕ) :
    ∀ (l : List ℕ) (acc : List BBox × List ℕ × Sim),
      (l.foldl (phantomStep rc rs draws ego fidx) acc).1 =
        acc.1 ++ (l.filter (phantomOk draws)).map
          (mkPhantomAnno rc rs draws ego fidx)
  | [], acc => by simp
  | i :: t, acc => by
    simp only [List.foldl_cons, List.filter_cons]
    rw [phantom_fold_annos rc rs draws ego fidx t
        (phantomStep rc rs draws ego fidx acc i),
      (phantomStep_proj rc rs draws ego fidx acc i).1]
    by_cases hok : phantomOk draws i <;> simp [hok]

/-- The recorded-entry list and the actor-handle list of the phantom loop
grow in lockstep. -/
lemma phantom_fold_len (rc rs : ℚ → ℚ) (draws : ℕ → PhantomDraw)
    (ego : Transform) (fidx : ℕ) :
    ∀ (l : List ℕ) (acc : List BBox × List ℕ × Sim),
      (l.foldl (phantomStep rc rs draws ego fidx) acc).1.length +
          acc.2.1.length =
        (l.foldl (phantomStep rc rs draws ego fidx) acc).2.1.length +
          acc.1.length
  | [], acc => by simp [Nat.add_comm]
  | i :: t, acc => by
    simp only [List.foldl_cons]
    have h := phantom_fold_len rc rs draws ego fidx t
      (phantomStep rc rs draws ego fidx acc i)
    obtain ⟨h1, h2⟩ := phantomStep_proj rc rs draws ego fidx acc i
    by_cases hok : phantomOk draws i
    · rw [if_pos hok] at h1 h2
      rw [h1, h2] at h
      simp only [List.length_append, List.length_singleton] at h
      omega
    · rw [if_neg hok] at h1 h2
      rw [h1, h2] at h
      omega

/-- The entries `spawn_random_objects` records: one `mkPhantomAnno` per
successful iteration index, in order. -/
lemma spawn_random_objects_annos (rc rs : ℚ → ℚ) (draws : ℕ → PhantomDraw)
    (num : ℕ) (sim : Sim) (ego : Transform) (fidx : ℕ) :
    (spawn_random_objects rc rs draws num sim ego fidx).1 =
      ((List.range num).filter (phantomOk draws)).map
        (mkPhantomAnno rc rs draws ego fidx) := by
  unfold spawn_random_objects
  simpa using phantom_fold_annos rc rs draws ego fidx (List.range num)
    ([], [], sim)

/-- The recorded-entry list and the actor-handle list returned by
`spawn_random_objects` have the same length. -/
lemma spawn_random_objects_len (rc rs : ℚ → ℚ) (draws : ℕ → PhantomDraw)
    (num : ℕ) (sim : Sim) (ego : Transform) (fidx : ℕ) :
    (spawn_random_objects rc rs draws num sim ego fidx).1.length =
      (spawn_random_objects rc rs draws num sim ego fidx).2.1.length := by
  unfold spawn_random_objects
  have h := phantom_fold_len rc rs draws ego fidx (List.range num)
    ([], [], sim)
  simpa using h

/-- Claim C9: every call to `spawn_random_objects` returns a recorded-entry
list and an actor-handle list of the same length — each recorded entry
corresponds to exactly one successfully spawned actor — and, the drawn count
`num` being at most the configured maximum `hi` of the count range
(`random.randint` contract), that length is at most `hi`: spawn failures
reduce it, never increase it. -/
theorem C9_lengths (rc rs : ℚ → ℚ) (draws : ℕ → PhantomDraw) (num : ℕ)
    (sim : Sim) (ego : Transform) (fidx hi : ℕ) (hnum : num ≤ hi) :
    (spawn_random_objects rc rs draws num sim ego fidx).1.length =
      (spawn_random_objects rc rs draws num sim ego fidx).2.1.length ∧
    (spawn_random_objects rc rs draws num sim ego fidx).1.length ≤ hi := by
  refine ⟨spawn_random_objects_len rc rs draws num sim ego fidx, ?_⟩
  rw [spawn_random_objects_annos]
  calc (((List.range num).filter (phantomOk draws)).map
      (mkPhantomAnno rc rs draws ego fidx)).length
      = ((List.range num).filter (phantomOk draws)).length :=
        List.length_map _ _
    _ ≤ (List.range num).length := List.length_filter_le _ _
    _ = num := List.length_range num
    _ ≤ hi := hnum

/-- Witness for C9 at a concrete call: two draws, both spawning, maximum
three. -/
theorem C9_witness :
    (spawn_random_objects idQ idQ (fun _ => dOk) 2 ⟨0, [], []⟩
        ⟨⟨0, 0, 0⟩, ⟨0, 0, 0⟩⟩ 0).1.length =
      (spawn_random_objects idQ idQ (fun _ => dOk) 2 ⟨0, [], []⟩
        ⟨⟨0, 0, 0⟩, ⟨0, 0, 0⟩⟩ 0).2.1.length ∧
    (spawn_random_objects idQ idQ (fun _ => dOk) 2 ⟨0, [], []⟩
        ⟨⟨0, 0, 0⟩, ⟨0, 0, 0⟩⟩ 0).1.length ≤ 3 :=
  C9_lengths idQ idQ (fun _ => dOk) 2 ⟨0, [], []⟩
    ⟨⟨0, 0, 0⟩, ⟨0, 0, 0⟩⟩ 0 3 (by decide)

/-- Case analysis of one frame's phantom injection: nothing is injected
unless an ego pose was seen and the configured maximum is positive, in which
case the injected entries and handles are exactly the ones
`spawn_random_objects` returns. -/
lemma processFrame_phantoms_cases (rc rs : ℚ → ℚ) (fenv : FrameEnv)
    (hi fidx : ℕ) (st : RState) (frame : Frame) :
    ((processFrame rc rs fenv hi fidx st frame).phantoms = [] ∧
     (processFrame rc rs fenv hi fidx st frame).phantomHandles = []) ∨
    (∃ eg, (frame.bounding_boxes.foldl (processBB fenv fidx)
        ⟨st, [], none, 0⟩).ego = some eg ∧ 0 < hi ∧
      (processFrame rc rs fenv hi fidx st frame).phantoms =
        (spawn_random_objects rc rs fenv.draws fenv.phantomCount
          (frame.bounding_boxes.foldl (processBB fenv fidx)
            ⟨st, [], none, 0⟩).st.sim eg fidx).1 ∧
      (processFrame rc rs fenv hi fidx st frame).phantomHandles =
        (spawn_random_objects rc rs fenv.draws fenv.phantomCount
          (frame.bounding_boxes.foldl (processBB fenv fidx)
            ⟨st, [], none, 0⟩).st.sim eg fidx).2.1) := by
  rcases hego : (frame.bounding_boxes.foldl (processBB fenv fidx)
      ⟨st, [], none, 0⟩).ego with _ | eg
  · exact Or.inl ⟨by simp [processFrame, hego],
      by simp [processFrame, hego]⟩
  · by_cases hhi : 0 < hi
    · exact Or.inr ⟨eg, rfl, hhi, by simp [processFrame, hego, hhi],
        by simp [processFrame, hego, hhi]⟩
    · exact Or.inl ⟨by simp [processFrame, hego, hhi],
        by simp [processFrame, hego, hhi]⟩

/-- The frame step's final simulator store is the destroy fold of the
injected handles over some intermediate store. -/
lemma processFrame_sim_destroyFold (rc rs : ℚ → ℚ) (fenv : FrameEnv)
    (hi fidx : ℕ) (st : RState) (frame : Frame) :
    ∃ s2, (processFrame rc rs fenv hi fidx st frame).state.sim =
      (processFrame rc rs fenv hi fidx st frame).phantomHandles.foldl
        (fun s h => s.destroy h) s2 :=
  ⟨_, rfl⟩

/-- Claim C7: the written record preserves the original frame — same weather
block, original bounding-box entries first and in order — and differs only
by the injected phantom entries appended at the end; each injected entry is a
`mkPhantomAnno` (class `random_object`, synthesized id
`random_<frame>_<i>`, its spawn location and rotation, and its prototype's
bounding-box extents) for some successful iteration index below the drawn
count; and every injected actor handle is destroyed — in the destroyed log
and not live — before the frame step ends. -/
theorem C7_written_record (rc rs : ℚ → ℚ) (fenv : FrameEnv) (hi fidx : ℕ)
    (st : RState) (frame : Frame) :
    (processFrame rc rs fenv hi fidx st frame).written.weather =
      frame.weather ∧
    (processFrame rc rs fenv hi fidx st frame).written.bounding_boxes =
      frame.bounding_boxes ++
        (processFrame rc rs fenv hi fidx st frame).phantoms ∧
    (∀ e ∈ (processFrame rc rs fenv hi fidx st frame).phantoms,
      ∃ i eg, i < fenv.phantomCount ∧ e.cls = "random_object" ∧
        e.id = phantomId fidx i ∧
        e = mkPhantomAnno rc rs fenv.draws eg fidx i) ∧
    (∀ h ∈ (processFrame rc rs fenv hi fidx st frame).phantomHandles,
      h ∈ (processFrame rc rs fenv hi fidx st frame).state.sim.destroyed ∧
      h ∉ liveHandles (processFrame rc rs fenv hi fidx st frame).state.sim)
    := by
  refine ⟨rfl, rfl, ?_, ?_⟩
  · intro e he
    rcases processFrame_phantoms_cases rc rs fenv hi fidx st frame with
      ⟨hP, _⟩ | ⟨eg, hego, hhi, hP, _⟩
    · rw [hP] at he
      exact absurd he (List.not_mem_nil e)
    · rw [hP, spawn_random_objects_annos] at he
      obtain ⟨i, himem, rfl⟩ := List.mem_map.mp he
      exact ⟨i, eg, List.mem_range.mp (List.mem_of_mem_filter himem),
        rfl, rfl, rfl⟩
  · intro h hmem
    obtain ⟨s2, hsim⟩ := processFrame_sim_destroyFold rc rs fenv hi fidx
      st frame
    rw [hsim]
    exact destroy_fold_hits (fun n : ℕ => n) _ s2 h hmem

/-! ## C10: synthesized id distinctness -/

/-- Reading a digit list back after appending a least-significant digit. -/
lemma decVal_append_digit (xs : List ℕ) (d : ℕ) :
    decVal (xs ++ [d]) = 10 * decVal xs + d := by
  unfold decVal
  rw [List.foldl_append]
  rfl

/-- `decVal` inverts `decDigits`. -/
lemma decVal_decDigits : ∀ n : ℕ, decVal (decDigits n) = n := by
  intro n
  induction n using Nat.strong_induction_on with
  | _ n ih =>
    by_cases h : n < 10
    · rw [decDigits, dif_pos h]
      show 10 * 0 + n = n
      omega
    · rw [decDigits, dif_neg h, decVal_append_digit,
        ih (n / 10) (Nat.div_lt_self (by omega) (by omega))]
      omega

/-- Every decimal digit produced is below 10. -/
lemma decDigits_lt10 : ∀ n : ℕ, ∀ d ∈ decDigits n, d < 10 := by
  intro n
  induction n using Nat.strong_induction_on with
  | _ n ih =>
    by_cases h : n < 10
    · rw [decDigits, dif_pos h]
      intro d hd
      rw [List.mem_singleton] at hd
      omega
    · rw [decDigits, dif_neg h]
      intro d hd
      rcases List.mem_append.mp hd with hm | hm
      · exact ih (n / 10) (Nat.div_lt_self (by omega) (by omega)) d hm
      · rw [List.mem_singleton] at hm
        subst hm
        exact Nat.mod_lt n (by omega)

/-- The decimal digit list determines the number. -/
lemma decDigits_inj {a b : ℕ} (h : decDigits a = decDigits b) : a = b := by
  rw [← decVal_decDigits a, ← decVal_decDigits b, h]

/-- Digit characters are never an underscore, and are pairwise distinct. -/
lemma digitChar10_props :
    (∀ d < 10, digitChar10 d ≠ '_') ∧
    (∀ a < 10, ∀ b < 10, digitChar10 a = digitChar10 b → a = b) := by
  decide

/-- Mapping through the digit-character table is injective on digit lists. -/
lemma map_digitChar10_inj : ∀ xs ys : List ℕ, (∀ x ∈ xs, x < 10) →
    (∀ y ∈ ys, y < 10) → xs.map digitChar10 = ys.map digitChar10 → xs = ys
  | [], [], _, _, _ => rfl
  | [], _ :: _, _, _, h => by simp at h
  | _ :: _, [], _, _, h => by simp at h
  | x :: xs, y :: ys, hx, hy, h => by
    simp only [List.map_cons, List.cons.injEq] at h
    have hxy : x = y := digitChar10_props.2 x (hx x (List.mem_cons_self x xs))
      y (hy y (List.mem_cons_self y ys)) h.1
    have ht := map_digitChar10_inj xs ys
      (fun a ha => hx a (List.mem_cons_of_mem x ha))
      (fun a ha => hy a (List.mem_cons_of_mem y ha)) h.2
    rw [hxy, ht]

/-- The decimal string of a number contains no underscore. -/
lemma natStr_no_underscore (n : ℕ) : '_' ∉ (natStr n).data := by
  intro hmem
  obtain ⟨d, hd, hchar⟩ := List.mem_map.mp hmem
  exact digitChar10_props.1 d (decDigits_lt10 n d hd) hchar

/-- The decimal string determines the number (through its character
data). -/
lemma natStr_data_inj {a b : ℕ}
    (h : (natStr a).data = (natStr b).data) : a = b :=
  decDigits_inj (map_digitChar10_inj (decDigits a) (decDigits b)
    (decDigits_lt10 a) (decDigits_lt10 b) h)

/-- Splitting at an underscore separator is unambiguous when neither prefix
part contains an underscore. -/
lemma append_underscore_inj :
    ∀ (A : List Char) (B A' B' : List Char), '_' ∉ A → '_' ∉ A' →
      A ++ '_' :: B = A' ++ '_' :: B' → A = A' ∧ B = B'
  | [], B, A', B', _, hA', h => by
    cases A' with
    | nil => simpa using h
    | cons c t =>
      simp only [List.nil_append, List.cons_append, List.cons.injEq] at h
      exact absurd (h.1 ▸ List.mem_cons_self c t) hA'
  | a :: t, B, A', B', hA, hA', h => by
    cases A' with
    | nil =>
      simp only [List.cons_append, List.nil_append, List.cons.injEq] at h
      exact absurd (h.1 ▸ List.mem_cons_self a t) hA
    | cons a' t' =>
      simp only [List.cons_append, List.cons.injEq] at h
      obtain ⟨ht, hB⟩ := append_underscore_inj t B t' B'
        (fun hm => hA (List.mem_cons_of_mem a hm))
        (fun hm => hA' (List.mem_cons_of_mem a' hm)) h.2
      exact ⟨by rw [h.1, ht], hB⟩

/-- The synthesized phantom id determines the frame index and the loop
index. -/
lemma phantomId_inj {k i l j : ℕ} (h : phantomId k i = phantomId l j) :
    k = l ∧ i = j := by
  unfold phantomId at h
  have hdata := congrArg String.data h
  simp only [String.data_append, List.append_assoc,
    List.singleton_append] at hdata
  have h2 := List.append_cancel_left hdata
  obtain ⟨hk, hi⟩ := append_underscore_inj (natStr k).data (natStr i).data
    (natStr l).data (natStr j).data (natStr_no_underscore k)
    (natStr_no_underscore l) h2
  exact ⟨natStr_data_inj hk, natStr_data_inj hi⟩

/-- Every phantom id written in one frame is `phantomId fidx i` for some
iteration index, and the frame's phantom ids are pairwise distinct. -/
lemma processFrame_phantomIds (rc rs : ℚ → ℚ) (fenv : FrameEnv)
    (hi fidx : ℕ) (st : RState) (frame : Frame) :
    (∀ s ∈ (processFrame rc rs fenv hi fidx st frame).phantoms.map BBox.id,
      ∃ i, s = phantomId fidx i) ∧
    ((processFrame rc rs fenv hi fidx st frame).phantoms.map
      BBox.id).Nodup := by
  rcases processFrame_phantoms_cases rc rs fenv hi fidx st frame with
    ⟨hP, _⟩ | ⟨eg, hego, hhi, hP, _⟩
  · rw [hP]
    exact ⟨fun s hs => absurd hs (List.not_mem_nil s), List.nodup_nil⟩
  · rw [hP, spawn_random_objects_annos, List.map_map]
    constructor
    · intro s hs
      obtain ⟨i, _, rfl⟩ := List.mem_map.mp hs
      exact ⟨i, rfl⟩
    · refine List.Nodup.map ?_ ((List.nodup_range _).filter _)
      intro i j hij
      exact (phantomId_inj (hij : phantomId fidx i = phantomId fidx j)).2

/-- Every phantom id collected from frame `idx` onward is a `phantomId k i`
with `k ≥ idx`. -/
lemma runFrames_phantomIds_shape (rc rs : ℚ → ℚ) (env : ℕ → FrameEnv)
    (hi : ℕ) :
    ∀ (frames : List Frame) (st : RState) (idx : ℕ),
      ∀ s ∈ phantomIdsOf (runFrames rc rs env hi st idx frames).2,
        ∃ k i, idx ≤ k ∧ s = phantomId k i
  | [], _, _, s, hs => absurd hs (List.not_mem_nil s)
  | f :: t, st, idx, s, hs => by
    simp only [runFrames, phantomIdsOf] at hs
    rcases List.mem_append.mp hs with hm | hm
    · obtain ⟨i, rfl⟩ :=
        (processFrame_phantomIds rc rs (env idx) hi idx st f).1 s hm
      exact ⟨idx, i, le_refl idx, rfl⟩
    · obtain ⟨k, i, hk, rfl⟩ := runFrames_phantomIds_shape rc rs env hi t
        (processFrame rc rs (env idx) hi idx st f).state (idx + 1) s hm
      exact ⟨k, i, by omega, rfl⟩

/-- The phantom ids collected over any frame suffix are pairwise
distinct. -/
lemma phantomIdsOf_nodup (rc rs : ℚ → ℚ) (env : ℕ → FrameEnv) (hi : ℕ) :
    ∀ (frames : List Frame) (st : RState) (idx : ℕ),
      (phantomIdsOf (runFrames rc rs env hi st idx frames).2).Nodup
  | [], _, _ => List.nodup_nil
  | f :: t, st, idx => by
    simp only [runFrames, phantomIdsOf]
    rw [List.nodup_append]
    refine ⟨(processFrame_phantomIds rc rs (env idx) hi idx st f).2,
      phantomIdsOf_nodup rc rs env hi t
        (processFrame rc rs (env idx) hi idx st f).state (idx + 1), ?_⟩
    intro s hs hs'
    obtain ⟨i, rfl⟩ :=
      (processFrame_phantomIds rc rs (env idx) hi idx st f).1 s hs
    obtain ⟨k, j, hk, heq⟩ := runFrames_phantomIds_shape rc rs env hi t
      (processFrame rc rs (env idx) hi idx st f).state (idx + 1) _ hs'
    have := (phantomId_inj heq).1
    omega

/-- Claim C10: the synthesized ids of injected phantom entries are pairwise
distinct across an entire instance replay — the id `random_<frame_idx>_<i>`
is built from the frame index and the per-frame loop index, and no two
phantom entries within a frame or across frames share an id. -/
theorem C10_phantom_ids_distinct (rc rs : ℚ → ℚ) (env : ℕ → FrameEnv)
    (hi : ℕ) (frames : List Frame) (st : RState) (idx : ℕ) :
    (phantomIdsOf (runFrames rc rs env hi st idx frames).2).Nodup :=
  phantomIdsOf_nodup rc rs env hi frames st idx

/-- Witness for C7 at a concrete frame with an ego actor and one successful
phantom draw: the injected entry is the expected `mkPhantomAnno`. -/
theorem C7_witness :
    ∃ i eg,
      i < (⟨fun _ => .ok1, fun _ => true, 1, fun _ => dOk⟩ :
        FrameEnv).phantomCount ∧
      (mkPhantomAnno idQ idQ (fun _ => dOk) ⟨⟨0, 0, 0⟩, ⟨0, 0, 0⟩⟩ 0
        0).cls = "random_object" ∧
      (mkPhantomAnno idQ idQ (fun _ => dOk) ⟨⟨0, 0, 0⟩, ⟨0, 0, 0⟩⟩ 0
        0).id = phantomId 0 i ∧
      (mkPhantomAnno idQ idQ (fun _ => dOk) ⟨⟨0, 0, 0⟩, ⟨0, 0, 0⟩⟩ 0 0) =
        mkPhantomAnno idQ idQ
          (⟨fun _ => .ok1, fun _ => true, 1, fun _ => dOk⟩ :
            FrameEnv).draws eg 0 i :=
  (C7_written_record idQ idQ
    ⟨fun _ => .ok1, fun _ => true, 1, fun _ => dOk⟩ 1 0
    (initState ⟨false, none⟩) ⟨[mkBB "ego_vehicle" "E"], w0⟩).2.2.1
    (mkPhantomAnno idQ idQ (fun _ => dOk) ⟨⟨0, 0, 0⟩, ⟨0, 0, 0⟩⟩ 0 0)
    (by exact List.mem_cons_self _ _)
